import Mathlib

/-
Verification of the AI-news-agent selection pipeline.

This file gives a shallow embedding, in Lean 4, of the selection pipeline of
the repository (src/src/filters/*.py, src/src/storage.py) and proves or
refutes the specification claims about it.

Modelling conventions, used throughout:
* a Python article dict is modelled by the structure `Article`; a field read
  with `article.get(key, default)` becomes a structure field with that
  default, so an absent key and a key holding the default are identified;
* timestamps (`datetime` values / parseable timestamp strings) are modelled
  as canonical integer timestamps `Option Int` (`none` = absent field or
  unparseable string; both code paths treat them the same way);
* `float` scores are modelled as rationals (`ℚ`);
* Python's stable `sorted(xs, key=k)` is modelled by
  `List.insertionSort (fun a b => k a ≤ k b)`, which is the same stable
  ascending sort (ties keep input order), and `sorted(xs, key=k,
  reverse=True)` by `List.insertionSort (fun a b => k b ≤ k a)`;
* cryptographic digests (sha256 / md5) are abstracted as an arbitrary
  function parameter `String → String` applied to exactly the string the
  source hashes; regular-expression searches (`re.search`) are abstracted as
  function parameters `String → Option String` returning the matched text.
-/

/-- Substring test: `hasSubstr pat hay = true` iff `pat` occurs as a contiguous
substring of `hay`.  Models Python's `pat in hay` on strings. -/
def hasSubstr (pat : List Char) : List Char → Bool
  | [] => pat.isEmpty
  | c :: t => pat.isPrefixOf (c :: t) || hasSubstr pat t

/-- Python's `pat in hay` substring operator. -/
def strContains (hay pat : String) : Bool := hasSubstr pat.data hay.data

/-- Python's `str.lower()` (ASCII case folding; all case-sensitive strings in
the sources are ASCII). -/
def toLowerStr (s : String) : String := String.mk (s.data.map Char.toLower)

/-- Python's stable ascending sort `sorted(l, key=..)` expressed through a
relation `r a b` meaning "key of a ≤ key of b". -/
def pySort (r : α → α → Prop) [DecidableRel r] (l : List α) : List α :=
  l.insertionSort r

/-- Detector metadata produced by `NewModelReleaseFilter.get_model_info`. -/
structure ModelInfo where
  model_name : Option String := none
  company : Option String := none
  title : String := ""
  url : String := ""
  source : String := ""
  published_at : Option Int := none
deriving DecidableEq, Repr

/-- One candidate news item (a Python article dict).  Field defaults are the
defaults used by the corresponding `article.get(...)` calls in the source. -/
structure Article where
  url : String := ""
  title : String := ""
  description : String := ""
  category : String := ""
  source_category : String := ""
  source : String := ""
  source_id : String := ""
  score : ℚ := 0
  published_at : Option Int := none
  stars : Int := 0
  today_stars : Int := 0
  likes : Int := 0
  downloads : Int := 0
  matched_categories : List String := []
  time_group : Option String := none
  is_extra : Bool := false
  extra_type : Option String := none
  is_new_model_release : Bool := false
  model_info : Option ModelInfo := none
  special_category : Option String := none
deriving DecidableEq, Repr

/-- The urls of a list of articles (`[a.get('url','') for a in l]`). -/
def urlsOf (l : List Article) : List String := l.map (·.url)

/-- Python's `a.get('url','') in selected_urls` where `selected_urls` is the
set of urls of the already selected articles `sel`. -/
def urlSelected (a : Article) (sel : List Article) : Bool :=
  sel.any (fun b => b.url == a.url)

namespace CategoryFilter

def CATEGORY_ACADEMIC : String := "academic"
def CATEGORY_MEDIA : String := "media"
def CATEGORY_LAB_BLOG : String := "lab_blog"
def CATEGORY_TOOLS : String := "tools"
def CATEGORY_COMMUNITY : String := "community"
def CATEGORY_NEWSLETTER : String := "newsletter"

/-- The six supported categories (membership list used by
`_extract_category`). -/
def validCategories : List String :=
  [CATEGORY_ACADEMIC, CATEGORY_MEDIA, CATEGORY_LAB_BLOG,
   CATEGORY_TOOLS, CATEGORY_COMMUNITY, CATEGORY_NEWSLETTER]

/-- Embeds `SOURCE_CATEGORY_MAPPING`, in the source's (insertion-ordered) dict
order. -/
def SOURCE_CATEGORY_MAPPING : List (String × String) :=
  [("arxiv", CATEGORY_ACADEMIC),
   ("arxiv_cs_ai", CATEGORY_ACADEMIC),
   ("papers_with_code", CATEGORY_ACADEMIC),
   ("huggingface_papers", CATEGORY_ACADEMIC),
   ("the_gradient", CATEGORY_ACADEMIC),
   ("nature_ai", CATEGORY_ACADEMIC),
   ("neurips", CATEGORY_ACADEMIC),
   ("icml", CATEGORY_ACADEMIC),
   ("jiqizhixin", CATEGORY_MEDIA),
   ("synced", CATEGORY_MEDIA),
   ("mit_tech_review", CATEGORY_MEDIA),
   ("the_decoder", CATEGORY_MEDIA),
   ("semafor_ai", CATEGORY_MEDIA),
   ("the_verge_ai", CATEGORY_MEDIA),
   ("openai_blog", CATEGORY_LAB_BLOG),
   ("google_deepmind", CATEGORY_LAB_BLOG),
   ("meta_ai_blog", CATEGORY_LAB_BLOG),
   ("anthropic_blog", CATEGORY_LAB_BLOG),
   ("anthropic", CATEGORY_LAB_BLOG),
   ("mistral_ai", CATEGORY_LAB_BLOG),
   ("xai_blog", CATEGORY_LAB_BLOG),
   ("microsoft_research", CATEGORY_LAB_BLOG),
   ("nvidia_blog", CATEGORY_LAB_BLOG),
   ("tongyi_lab", CATEGORY_LAB_BLOG),
   ("zhipu_ai", CATEGORY_LAB_BLOG),
   ("huggingface_blog", CATEGORY_LAB_BLOG),
   ("product_hunt_ai", CATEGORY_TOOLS),
   ("futurepedia", CATEGORY_TOOLS),
   ("theresanai", CATEGORY_TOOLS),
   ("huggingface_spaces", CATEGORY_TOOLS),
   ("github_trending_ai", CATEGORY_TOOLS),
   ("hacker_news", CATEGORY_COMMUNITY),
   ("reddit_ml", CATEGORY_COMMUNITY),
   ("lilog", CATEGORY_COMMUNITY),
   ("the_batch", CATEGORY_NEWSLETTER),
   ("import_ai", CATEGORY_NEWSLETTER),
   ("bens_bites", CATEGORY_NEWSLETTER)]

/-- First mapping entry whose key occurs as a substring of `s`
(the `for key, category in SOURCE_CATEGORY_MAPPING.items(): if key in s`
loops). -/
def lookupMapping (s : String) : Option String :=
  (SOURCE_CATEGORY_MAPPING.find? (fun kv => strContains s kv.1)).map (·.2)

/-- Embeds `CategoryFilter._extract_category`: explicit `category` field if valid,
else `source_category` if valid, else substring lookup on `source_id` then
`source`, else `media`. -/
def extract_category (a : Article) : String :=
  if a.category ≠ "" ∧ a.category ∈ validCategories then a.category
  else if a.source_category ≠ "" ∧ a.source_category ∈ validCategories then
    a.source_category
  else
    let source := toLowerStr a.source
    let source_id := toLowerStr a.source_id
    match (if source_id ≠ "" then lookupMapping source_id else none) with
    | some c => c
    | none =>
      match (if source ≠ "" then lookupMapping source else none) with
      | some c => c
      | none => CATEGORY_MEDIA

/-- The pool for one category built by `CategoryFilter.classify` (articles
are appended in input order; the `if category not in categorized` guard of
`classify` is unreachable because `_extract_category` always returns one of
the six categories). -/
def pool (articles : List Article) (cat : String) : List Article :=
  articles.filter (fun a => extract_category a == cat)

/-- Embeds `_extract_published_at(article).timestamp() if published_at else 0` —
the timestamp used by the sort keys (missing publication time counts as 0,
the epoch). -/
def articleTs (a : Article) : Int := a.published_at.getD 0

/-- Embeds `CategoryFilter._sort_articles_by_score`: Python
`sorted(articles, key=lambda a: -a.score)` (stable; highest score first). -/
def sort_articles_by_score (articles : List Article) : List Article :=
  pySort (fun a b => -a.score ≤ -b.score) articles

/-- Embeds `CategoryFilter._sort_articles_by_recency_and_score`: Python
`sorted(articles, key=lambda a: (-timestamp, score))` — ascending stable
sort on the lexicographic key `(-timestamp, score)`. -/
def sort_articles_by_recency_and_score (articles : List Article) : List Article :=
  pySort (fun a b =>
    -(articleTs a) < -(articleTs b) ∨
      (-(articleTs a) = -(articleTs b) ∧ a.score ≤ b.score)) articles

/-- Keyword list used by the academic fallback of `_filter_single_channel`
step 1. -/
def academic_keywords : List String :=
  ["paper", "research", "study", "science", "scientific", "academic",
   "scholarly", "conference", "journal", "thesis", "dissertation",
   "publication", "experiment", "methodology", "analysis"]

/-- The `any(keyword in text for keyword in academic_keywords)` test of the
step-1 fallback, with `text = f"{title.lower()} {description.lower()}"`. -/
def hasAcademicKeyword (a : Article) : Bool :=
  let text := toLowerStr a.title ++ " " ++ toLowerStr a.description
  academic_keywords.any (fun kw => strContains text kw)

/-- Step 1 of `_filter_single_channel`: two academic articles by
recency-then-score, or — when the academic pool is empty — up to two
articles containing an academic keyword, re-labelled `academic`.
(In the fallback, `selected_urls` is empty and `all_remaining` is the whole
input; the loop with its `len >= 2` break is a filter + take 2.) -/
def selectAcademic (articles : List Article) : List Article :=
  if (pool articles CATEGORY_ACADEMIC).isEmpty then
    ((articles.filter hasAcademicKeyword).take 2).map
      (fun a => { a with category := CATEGORY_ACADEMIC })
  else
    (sort_articles_by_recency_and_score (pool articles CATEGORY_ACADEMIC)).take 2

/-- Step 2 of `_filter_single_channel`: up to three tools articles by score
(no dedup against the urls already selected in step 1). -/
def selectTools (articles : List Article) : List Article :=
  if (pool articles CATEGORY_TOOLS).isEmpty then []
  else (sort_articles_by_score (pool articles CATEGORY_TOOLS)).take 3

/-- Step 3 of `_filter_single_channel`: up to three lab-blog articles by
recency-then-score (again no dedup against already selected urls). -/
def selectLab (articles : List Article) : List Article :=
  if (pool articles CATEGORY_LAB_BLOG).isEmpty then []
  else (sort_articles_by_recency_and_score (pool articles CATEGORY_LAB_BLOG)).take 3

/-- Result of steps 1–3 of `_filter_single_channel`. -/
def step3Result (articles : List Article) : List Article :=
  selectAcademic articles ++ selectTools articles ++ selectLab articles

/-- Step 4 of `_filter_single_channel` fills up to the hard-coded
`target_min_total = 13`: first from the media pool (part A), then from the
remaining media-classified articles (part B), then from any remaining
article (part C).  `needed = max(0, 13 - len(result))` is natural-number
subtraction; the running `selected_urls` set is always exactly the set of
urls of the running result list, so it is expressed through `urlSelected`.
This is part A: the media-pool articles added by the first fill. -/
def step4PartA (articles : List Article) (r3 : List Article) (needed0 : Nat) :
    List Article :=
  if ¬ (pool articles CATEGORY_MEDIA).isEmpty ∧ needed0 > 0 then
    if ((pool articles CATEGORY_MEDIA).filter
        (fun a => ¬ urlSelected a r3)).isEmpty then []
    else
      (sort_articles_by_recency_and_score
        ((pool articles CATEGORY_MEDIA).filter (fun a => ¬ urlSelected a r3))).take
        (min needed0
          ((pool articles CATEGORY_MEDIA).filter
            (fun a => ¬ urlSelected a r3)).length)
  else []

/-- The articles added by the remaining-media part of step 4's second fill
(empty when that fill block or its inner branches are skipped).
`r4a` is the result after part A. -/
def step4PartB (articles : List Article) (r4a : List Article) (needed1 : Nat) :
    List Article :=
  if needed1 > 0 then
    if (articles.filter (fun a => ¬ urlSelected a r4a)).isEmpty then []
    else
      if ((articles.filter (fun a => ¬ urlSelected a r4a)).filter
          (fun a => extract_category a == CATEGORY_MEDIA)).isEmpty then []
      else
        (sort_articles_by_recency_and_score
          ((articles.filter (fun a => ¬ urlSelected a r4a)).filter
            (fun a => extract_category a == CATEGORY_MEDIA))).take
          (min needed1
            ((articles.filter (fun a => ¬ urlSelected a r4a)).filter
              (fun a => extract_category a == CATEGORY_MEDIA)).length)
  else []

/-- The articles added by the any-category part of step 4's second fill;
it runs inside the same `needed > 0` / non-empty-remainder block as part B
(hence the guards on `r4a`) but draws against the urls of `r4b`. -/
def step4PartC (articles : List Article) (r4a r4b : List Article)
    (needed1 needed2 : Nat) : List Article :=
  if needed1 > 0 then
    if (articles.filter (fun a => ¬ urlSelected a r4a)).isEmpty then []
    else
      if needed2 > 0 then
        if (articles.filter (fun a => ¬ urlSelected a r4b)).isEmpty then []
        else
          (sort_articles_by_recency_and_score
            (articles.filter (fun a => ¬ urlSelected a r4b))).take needed2
      else []
  else []

/-- Step 4 of `_filter_single_channel`, assembled from its three fills in
the source's sequence.  The branches of the source that return the running
result unchanged correspond to the parts returning `[]` (appending nothing),
which gives the same list. -/
def step4Result (articles : List Article) (r3 : List Article) : List Article :=
  let needed0 : Nat := 13 - r3.length
  let selA := step4PartA articles r3 needed0
  let r4a := r3 ++ selA
  let needed1 := needed0 - selA.length
  let selB := step4PartB articles r4a needed1
  let r4b := r4a ++ selB
  let needed2 := needed1 - selB.length
  r4b ++ step4PartC articles r4a r4b needed1 needed2

/-- Step 5 of `_filter_single_channel`: if below the hard-coded ceiling 16,
fill further, media first, then the other categories.  This is its media
fill: the media-classified unclaimed articles, up to
`additional_needed0`. -/
def step5MediaAdd (articles : List Article) (r4 : List Article)
    (additional_needed0 : Nat) : List Article :=
  if (articles.filter (fun a => ¬ urlSelected a r4)).isEmpty then []
  else
    if ((articles.filter (fun a => ¬ urlSelected a r4)).filter
        (fun a => extract_category a == CATEGORY_MEDIA)).isEmpty then []
    else
      (sort_articles_by_recency_and_score
        ((articles.filter (fun a => ¬ urlSelected a r4)).filter
          (fun a => extract_category a == CATEGORY_MEDIA))).take
        additional_needed0

/-- The non-media articles added by step 5 once the media additions left
`additional_needed1` slots. -/
def step5OtherAdd (articles : List Article) (r4 : List Article)
    (additional_needed1 : Nat) : List Article :=
  if (articles.filter (fun a => ¬ urlSelected a r4)).isEmpty then []
  else
    if additional_needed1 > 0 ∧
        ¬ ((articles.filter (fun a => ¬ urlSelected a r4)).filter
          (fun a => ¬ (extract_category a == CATEGORY_MEDIA))).isEmpty then
      (sort_articles_by_recency_and_score
        ((articles.filter (fun a => ¬ urlSelected a r4)).filter
          (fun a => ¬ (extract_category a == CATEGORY_MEDIA)))).take
        additional_needed1
    else []

/-- Step 5 of `_filter_single_channel`, assembled from its two fills: when
below 16, add media first, then other categories; the source branches that
leave the result unchanged correspond to the parts returning `[]`. -/
def step5Result (articles : List Article) (r4 : List Article) : List Article :=
  if r4.length < 16 then
    let additional_needed0 : Nat := 16 - r4.length
    let media_to_add := step5MediaAdd articles r4 additional_needed0
    r4 ++ media_to_add ++
      step5OtherAdd articles r4 (additional_needed0 - media_to_add.length)
  else r4

/-- Steps 1–5 of `_filter_single_channel`: the regular (non-extra)
selection.  It is a pure function of the input batch — in particular it
performs no storage query (the source's only use of `self.storage` in
`_filter_single_channel` is to build the unused local
`all_articles_for_detection`). -/
def regularSelection (articles : List Article) : List Article :=
  step5Result articles (step4Result articles (step3Result articles))

end CategoryFilter

namespace NewModelReleaseFilter

/-- Embeds `AI_LABS` of `NewModelReleaseFilter` (already lower-case in the
source). -/
def AI_LABS : List String :=
  ["openai", "anthropic", "google", "deepmind", "meta", "facebook",
   "microsoft", "amazon", "nvidia", "apple", "xai", "elon musk",
   "mistral", "inflection", "character.ai", "adept", "cohere",
   "百度", "阿里巴巴", "阿里", "腾讯", "字节跳动", "智谱", "月之暗面",
   "01.ai", "零一万物", "minimax", "昆仑万维", "360", "科大讯飞"]

/-- A compiled model-name regular expression is abstracted as a search
function returning the matched text (`regex.search(s)` and
`match.group(0)`). -/
abbrev Matcher := String → Option String

/-- Embeds `NewModelReleaseFilter.is_new_model_release`.  `kw` is
`self.new_model_keywords` (lower-cased at construction), `matchers` is
`self.model_regexes`. -/
def is_new_model_release (kw : List String) (matchers : List Matcher)
    (a : Article) : Bool :=
  let content := toLowerStr a.title ++ " " ++ toLowerStr a.description
  let has_keyword := kw.any (fun k => strContains content k)
  if ¬ has_keyword then false
  else
    let has_model_name := matchers.any (fun r => (r content).isSome)
    if ¬ has_model_name then
      let source := toLowerStr a.source
      AI_LABS.any (fun lab => strContains source lab)
    else true

/-- Embeds `NewModelReleaseFilter.extract_model_name`: first regex match in the
title, else in the description. -/
def extract_model_name (matchers : List Matcher) (a : Article) :
    Option String :=
  match matchers.findSome? (fun r => r a.title) with
  | some m => some m
  | none => matchers.findSome? (fun r => r a.description)

/-- Embeds `NewModelReleaseFilter.get_model_info`. -/
def get_model_info (matchers : List Matcher) (a : Article) : ModelInfo :=
  { model_name := extract_model_name matchers a,
    company :=
      AI_LABS.find? (fun lab => strContains (toLowerStr a.source) (toLowerStr lab)),
    title := a.title,
    url := a.url,
    source := a.source,
    published_at := a.published_at }

/-- Python's `str(None) = "None"` / `str(s) = s` as used by the f-string
`f"{company}_{model_name}"`. -/
def optToStr : Option String → String
  | none => "None"
  | some s => s

/-- The per-run dedup key `f"{company}_{model_name}"`. -/
def model_key (mi : ModelInfo) : String :=
  optToStr mi.company ++ "_" ++ optToStr mi.model_name

/-- The `(company, model_name)` key of an article, as recorded by the
detector (via `get_model_info`). -/
def articleModelKey (matchers : List Matcher) (a : Article) : String :=
  model_key (get_model_info matchers a)

/-- The tagged copy appended by the detector loop:
`article_copy = article.copy()`, `article_copy['is_new_model_release'] =
True`, `article_copy['model_info'] = model_info`. -/
def nmTag (matchers : List Matcher) (a : Article) : Article :=
  { a with is_new_model_release := true,
           model_info := some (get_model_info matchers a) }

/-- The loop body of `NewModelReleaseFilter.filter_new_model_releases`.
`recorded` is the instance state `self._recorded_models`, `cutoff` is
`datetime.now() - timedelta(hours=hours)`, `acc` the accumulated output.
The `break` after reaching `max_extra` returns early. -/
def filterGo (kw : List String) (matchers : List Matcher) (cutoff : Int)
    (max_extra : Nat) (recorded : List String) (acc : List Article) :
    List Article → List Article × List String
  | [] => (acc, recorded)
  | a :: rest =>
    if ¬ is_new_model_release kw matchers a then
      filterGo kw matchers cutoff max_extra recorded acc rest
    else if (match a.published_at with
             | some t => decide (t < cutoff)
             | none => false) then
      filterGo kw matchers cutoff max_extra recorded acc rest
    else
      let key := model_key (get_model_info matchers a)
      if key ∈ recorded then
        filterGo kw matchers cutoff max_extra recorded acc rest
      else
        let acc' := acc ++ [nmTag matchers a]
        let recorded' := recorded ++ [key]
        if max_extra ≤ acc'.length then (acc', recorded')
        else filterGo kw matchers cutoff max_extra recorded' acc' rest

/-- Embeds `NewModelReleaseFilter.filter_new_model_releases`, with the instance
state `self._recorded_models` passed in and returned explicitly. -/
def filter_new_model_releases (kw : List String) (matchers : List Matcher)
    (cutoff : Int) (recorded : List String) (articles : List Article)
    (max_extra : Nat) : List Article × List String :=
  filterGo kw matchers cutoff max_extra recorded [] articles

end NewModelReleaseFilter

namespace FunGithubFilter

/-- Embeds `self.productivity_keywords` (kept verbatim, duplicates included). -/
def productivity_keywords : List String :=
  ["tool", "utility", "helper", "boilerplate", "template",
   "automation", "script", "cli", "workflow", "productivity",
   "efficiency", "optimize", "speed", "fast", "quick",
   "code", "refactor", "lint", "format", "debug", "profile",
   "testing", "mock", "stub", "automation",
   "data", "excel", "csv", "json", "parser", "convert",
   "clean", "process", "transform",
   "note", "todo", "calendar", "task", "schedule", "organize",
   "manage", "tracker", "dashboard", "report"]

/-- Embeds `self.fun_keywords` (kept verbatim, duplicates included). -/
def fun_keywords : List String :=
  ["game", "arcade", "fun", "play", "toy", "demo",
   "animation", "gif", "image", "video", "music",
   "art", "pixel", "sprite", "retro", "arcade",
   "creative", "amazing", "cool", "awesome", "funny",
   "humor", "meme", "comic", "cartoon", "bongo cat",
   "cat", "pet", "emoji", "gaming", "mascot",
   "visual", "effect", "beautiful", "pretty", "design",
   "theme", "color", "light", "dark", "aesthetic"]

/-- Embeds `self.boring_keywords`. -/
def boring_keywords : List String :=
  ["docs", "documentation", "tutorial", "course",
   "exercise", "homework", "assignment", "lecture",
   "deprecated", "archived", "legacy", "backup"]

/-- The emoji list checked by `_is_fun_or_productive` and
`_calculate_fun_score`. -/
def funEmojis : List String := ["😺", "🐱", "🎮", "🎨"]

/-- Embeds `FunGithubFilter._is_github_project`. -/
def is_github_project (a : Article) : Bool :=
  strContains (toLowerStr a.source) "github" ||
    strContains (toLowerStr a.url) "github.com"

/-- The lowered `f"{title} {description}"` text both predicates use. -/
def funText (a : Article) : String :=
  toLowerStr a.title ++ " " ++ toLowerStr a.description

/-- Embeds `FunGithubFilter._is_fun_or_productive`. -/
def is_fun_or_productive (a : Article) : Bool :=
  let text := funText a
  if boring_keywords.any (fun kw => strContains text kw) then false
  else
    let has_productivity :=
      productivity_keywords.any (fun kw => strContains text kw)
    let has_fun := fun_keywords.any (fun kw => strContains text kw)
    let has_special_fun :=
      strContains text "bongo cat" || strContains text "bongo" ||
        funEmojis.any (fun e => strContains text e)
    has_productivity || has_fun || has_special_fun

/-- Embeds `FunGithubFilter._calculate_fun_score`. -/
def calculate_fun_score (a : Article) : ℚ :=
  let text := funText a
  let productivity_matches : ℚ :=
    (productivity_keywords.countP (fun kw => strContains text kw) : ℚ)
  let fun_matches : ℚ :=
    (fun_keywords.countP (fun kw => strContains text kw) : ℚ)
  let score : ℚ :=
    0.5 + productivity_matches * 0.1 + fun_matches * 0.1 +
      (if strContains text "bongo cat" then 0.5 else 0) +
      (if funEmojis.any (fun e => strContains text e) then 0.2 else 0) +
      (if a.stars > 1000 then 0.3
       else if a.stars > 100 then 0.2
       else if a.stars > 10 then 0.1 else 0)
  min score 1

/-- Embeds `FunGithubFilter.filter_fun_github_projects`: qualifying projects,
re-scored, sorted by score descending (stable), top 2. -/
def filter_fun_github_projects (articles : List Article) : List Article :=
  let fun_projects :=
    (articles.filter (fun a => is_github_project a && is_fun_or_productive a)).map
      (fun a => { a with special_category := some "fun_github",
                         score := calculate_fun_score a })
  (pySort (fun a b => b.score ≤ a.score) fun_projects).take 2

end FunGithubFilter

namespace CategoryFilter

/-- Step 6 of `_filter_single_channel`: model-release extras.  They are
detected among the articles whose url was not selected in steps 1–5
(`unsampled_articles`), with `max_extra = self.new_model_extra_count`
(default 3) and the 48h window cutoff; each is tagged
`is_extra = True, extra_type = 'new_model_release'`. -/
def nmExtras (kw : List String) (matchers : List NewModelReleaseFilter.Matcher)
    (cutoff : Int) (recorded : List String) (articles : List Article) :
    List Article :=
  let result := regularSelection articles
  let unsampled := articles.filter (fun a => ¬ urlSelected a result)
  let new_model_articles :=
    if unsampled.isEmpty then []
    else (NewModelReleaseFilter.filter_new_model_releases
            kw matchers cutoff recorded unsampled 3).1
  new_model_articles.map
    (fun a => { a with is_extra := true,
                       extra_type := some "new_model_release" })

/-- Step 7 of `_filter_single_channel`: fun-GitHub extras, detected among
the articles whose url is not in the result including the model-release
extras; tagged `is_extra = True, extra_type = 'fun_github_project'`. -/
def fgExtras (kw : List String) (matchers : List NewModelReleaseFilter.Matcher)
    (cutoff : Int) (recorded : List String) (articles : List Article) :
    List Article :=
  let final_result :=
    regularSelection articles ++ nmExtras kw matchers cutoff recorded articles
  let unsampled := articles.filter (fun a => ¬ urlSelected a final_result)
  let fun_github_articles :=
    if unsampled.isEmpty then []
    else FunGithubFilter.filter_fun_github_projects unsampled
  fun_github_articles.map
    (fun a => { a with is_extra := true,
                       extra_type := some "fun_github_project" })

/-- Embeds `CategoryFilter._filter_single_channel` (the single-channel mode of
`filter_for_daily_output`): the regular selection of steps 1–5 followed by
the two kinds of appended extras.  Parameters: `kw` are the configured
new-model keywords (lower-cased), `matchers` the model-name regexes,
`cutoff` the 48-hour detection cutoff, `recorded` the
`NewModelReleaseFilter` instance state at call time. -/
def filter_single_channel (kw : List String)
    (matchers : List NewModelReleaseFilter.Matcher) (cutoff : Int)
    (recorded : List String) (articles : List Article) : List Article :=
  regularSelection articles ++
    nmExtras kw matchers cutoff recorded articles ++
    fgExtras kw matchers cutoff recorded articles

end CategoryFilter

namespace TimeFilter

/-- Embeds `TimeFilter.GROUP_RECENT`. -/
def GROUP_RECENT : String := "recent"

/-- Embeds `TimeFilter.GROUP_HISTORICAL`. -/
def GROUP_HISTORICAL : String := "historical"

/-- Default `daily_target_count` (10). -/
def daily_target_count : Nat := 10

/-- Embeds `int(self.daily_target_count * self.target_recent_ratio)` with the
defaults 10 and 0.80.  `int(10 * 0.80) = 8` both in IEEE-754 double and in
exact rational arithmetic. -/
def target_recent_primary : Nat := 8

/-- Embeds `int(self.daily_target_count * self.min_recent_ratio)` with the
defaults 10 and 0.70.  `int(10 * 0.70) = 7` both in IEEE-754 double and in
exact rational arithmetic. -/
def target_recent_fallback : Nat := 7

/-- Embeds `self.daily_target_count - target_recent_primary` (= 2). -/
def target_historical_primary : Nat := daily_target_count - target_recent_primary

/-- Embeds `self.daily_target_count - target_recent_fallback` (= 3). -/
def target_historical_fallback : Nat := daily_target_count - target_recent_fallback

/-- The time group assigned by `TimeFilter.classify`, in terms of the
cutoff (`now - (recent_threshold_days + 1)` at end of day) and the end of
the current day: recent iff the publication timestamp exists and lies in
`[cutoff, today_end]`. -/
def time_group_of (cutoff today_end : Int) (a : Article) : String :=
  match a.published_at with
  | none => GROUP_HISTORICAL
  | some t =>
    if cutoff ≤ t ∧ t ≤ today_end then GROUP_RECENT else GROUP_HISTORICAL

/-- Embeds `TimeFilter.classify`: each article is copied with its `_time_group`
annotation and appended, in input order, to the `recent` or `historical`
bucket. -/
def classify (cutoff today_end : Int) (articles : List Article) :
    List Article × List Article :=
  let tagged := articles.map
    (fun a => { a with time_group := some (time_group_of cutoff today_end a) })
  (tagged.filter (fun a => a.time_group == some GROUP_RECENT),
   tagged.filter (fun a => ¬ (a.time_group == some GROUP_RECENT)))

/-- Embeds `TimeFilter._sort_articles`: Python
`sorted(articles, key=lambda a: (score, timestamp), reverse=True)` — a
stable descending sort on the lexicographic key `(score, timestamp)`. -/
def sort_articles (articles : List Article) : List Article :=
  pySort (fun a b =>
    b.score < a.score ∨ (b.score = a.score ∧ articleTsTF b ≤ articleTsTF a))
    articles
where
  /-- Embeds `published_at.timestamp() if published_at else 0` in
  `TimeFilter._sort_articles`. -/
  articleTsTF (a : Article) : Int := a.published_at.getD 0

/-- Embeds `TimeFilter.filter_for_daily_output` with the default configuration
(N = 10, target ratio 0.80, floor ratio 0.70); `cutoff`/`today_end` stand
for the dynamically computed day boundaries. -/
def filter_for_daily_output (cutoff today_end : Int)
    (articles : List Article) : List Article :=
  let classified := classify cutoff today_end articles
  let recent_sorted := sort_articles classified.1
  let historical_sorted := sort_articles classified.2
  let result :=
    if target_recent_primary ≤ recent_sorted.length then
      -- strategy 1: target ratio 80%
      let selected_recent := recent_sorted.take target_recent_primary
      let needed_historical :=
        min target_historical_primary historical_sorted.length
      let selected_historical := historical_sorted.take needed_historical
      let r0 := selected_recent ++ selected_historical
      if r0.length < daily_target_count then
        r0 ++ ((recent_sorted.drop target_recent_primary).take
               (daily_target_count - r0.length))
      else r0
    else if target_recent_fallback ≤ recent_sorted.length then
      -- strategy 2: floor ratio 70%
      let selected_recent := recent_sorted.take target_recent_fallback
      let needed_historical :=
        min target_historical_fallback historical_sorted.length
      let selected_historical := historical_sorted.take needed_historical
      let r0 := selected_recent ++ selected_historical
      if r0.length < daily_target_count then
        r0 ++ ((historical_sorted.drop selected_historical.length).take
               (daily_target_count - r0.length))
      else r0
    else
      -- strategy 3: recent severely short
      let selected_recent := recent_sorted
      let needed_historical :=
        min (daily_target_count - selected_recent.length)
          historical_sorted.length
      selected_recent ++ historical_sorted.take needed_historical
  result.take daily_target_count

/-- Number of articles of a list carrying the `recent` annotation. -/
def recentCount (l : List Article) : Nat :=
  l.countP (fun a => a.time_group == some GROUP_RECENT)

end TimeFilter

namespace ThresholdFilter

/-- The configuration surface consumed by `ThresholdFilter` (scoring
weights, admission thresholds, keyword list). -/
structure TFConfig where
  w_source_priority : ℚ := 0.3
  w_keyword_match : ℚ := 0.3
  w_recency : ℚ := 0.2
  w_engagement : ℚ := 0.2
  min_score : ℚ := 0
  min_title_length : Nat := 0
  max_title_length : Nat := 500
  min_description_length : Nat := 0
  primary_window_hours : Int := 72
  github_stars : Option (Int × Int) := none
  hf_min_likes : Int := 0
  hf_min_downloads : Int := 0
  keywords : List String := []
deriving Repr

/-- The `priority_map` of `_score_source_priority`, in source order (first
matching key wins). -/
def priority_map : List (String × ℚ) :=
  [("arXiv", 1.0), ("arXiv Sanity", 1.0), ("NeurIPS", 0.95), ("ICML", 0.95),
   ("OpenAI", 0.9), ("Anthropic", 0.9), ("Google DeepMind", 0.9),
   ("Meta AI", 0.85), ("HuggingFace", 0.8), ("GitHub", 0.7),
   ("MIT Technology Review", 0.75), ("Nature AI", 0.8), ("The Verge", 0.6)]

/-- Embeds `ThresholdFilter._score_source_priority`: first `priority_map` key that
is a substring of `source` (case-sensitive), else the neutral 0.5. -/
def score_source_priority (a : Article) : ℚ :=
  match priority_map.find? (fun kv => strContains a.source kv.1) with
  | some kv => kv.2
  | none => 0.5

/-- Embeds `ThresholdFilter._score_keyword_match`. -/
def score_keyword_match (cfg : TFConfig) (a : Article) : ℚ :=
  if a.matched_categories ≠ [] then
    min (0.6 + (a.matched_categories.length : ℚ) * 0.1) 1
  else
    let text := toLowerStr (a.title ++ " " ++ a.description)
    let nMatches : ℚ :=
      (cfg.keywords.countP
        (fun kw => kw ≠ "" && strContains text (toLowerStr kw)) : ℚ)
    min (nMatches * 0.1) 1

/-- Embeds `ThresholdFilter._score_recency` (`now` is `datetime.now()`; `none`
covers both a missing `published_at` and an unparseable one, and the
`except` fallback — all return the neutral 0.5). -/
def score_recency (now : Int) (a : Article) : ℚ :=
  match a.published_at with
  | none => 0.5
  | some t =>
    let hours_ago : ℚ := ((now - t : Int) : ℚ) / 3600
    if hours_ago ≤ 24 then 1.0
    else if hours_ago ≤ 48 then 0.7
    else if hours_ago ≤ 72 then 0.4
    else 0.2

/-- Embeds `ThresholdFilter._score_engagement`. -/
def score_engagement (a : Article) : ℚ :=
  min ((a.today_stars : ℚ) * 0.01 + (a.stars : ℚ) * 0.001 +
       (a.likes : ℚ) * 0.01 + (a.downloads : ℚ) * 0.0001) 1

/-- Python's `round(q, 3)` on a rational: round `q·1000` to an integer and
scale back.  (Python rounds ties to even, Mathlib's `round` rounds ties up;
they agree except on exact ties, and either way the value stays between the
same integer bounds, which is all the theorems use.) -/
def pyRound3 (q : ℚ) : ℚ := (round (q * 1000) : ℚ) / 1000

/-- Embeds `ThresholdFilter._calculate_score`: the weighted sum of the four
sub-scores, rounded to three decimal places. -/
def calculate_score (cfg : TFConfig) (now : Int) (a : Article) : ℚ :=
  pyRound3
    (cfg.w_source_priority * score_source_priority a +
     cfg.w_keyword_match * score_keyword_match cfg a +
     cfg.w_recency * score_recency now a +
     cfg.w_engagement * score_engagement a)

/-- Embeds `ThresholdFilter._meets_content_thresholds`. -/
def meets_content_thresholds (cfg : TFConfig) (a : Article) : Bool :=
  if a.title.length < cfg.min_title_length then false
  else if a.title.length > cfg.max_title_length then false
  else if a.description.length < cfg.min_description_length then false
  else true

/-- Embeds `ThresholdFilter._within_time_window` (missing/unparseable timestamp is
not filtered). -/
def within_time_window (cfg : TFConfig) (now : Int) (a : Article) : Bool :=
  match a.published_at with
  | none => true
  | some t => decide (t ≥ now - cfg.primary_window_hours * 3600)

/-- Embeds `ThresholdFilter._meets_github_thresholds`. -/
def meets_github_thresholds (cfg : TFConfig) (a : Article) : Bool :=
  match cfg.github_stars with
  | none => true
  | some (min_stars, min_today) =>
    if a.stars < min_stars then false
    else if a.today_stars < min_today then false
    else true

/-- Embeds `ThresholdFilter._meets_huggingface_thresholds`. -/
def meets_huggingface_thresholds (cfg : TFConfig) (a : Article) : Bool :=
  if a.likes < cfg.hf_min_likes then false
  else if a.downloads < cfg.hf_min_downloads then false
  else true

/-- Embeds `ThresholdFilter._meets_thresholds` (the arXiv secondary gate of the
source always returns `True`). -/
def meets_thresholds (cfg : TFConfig) (now : Int) (a : Article) : Bool :=
  if a.score < cfg.min_score then false
  else if ¬ meets_content_thresholds cfg a then false
  else if ¬ within_time_window cfg now a then false
  else if strContains a.source "arXiv" then true
  else if strContains a.source "GitHub" then meets_github_thresholds cfg a
  else if strContains a.source "HuggingFace" then
    meets_huggingface_thresholds cfg a
  else true

/-- Embeds `ThresholdFilter.filter`: score every article (`article["score"] =
score`), keep it iff it meets the thresholds, and sort the result by score
descending.  The scoring computation of the embedding is total, so the
`except` fallback of the source (keep the article unscored) is
unreachable. -/
def filterArticles (cfg : TFConfig) (now : Int) (articles : List Article) :
    List Article :=
  let filtered := articles.filterMap (fun a =>
    let scored := { a with score := calculate_score cfg now a }
    if meets_thresholds cfg now scored then some scored else none)
  pySort (fun a b => b.score ≤ a.score) filtered

end ThresholdFilter

namespace Deduplicator

/-- The in-run dedup caches of a `Deduplicator` instance:
`self._seen_urls` and `self._seen_content_hashes`. -/
structure DedupState where
  seen_urls : List String := []
  seen_content_hashes : List String := []
deriving DecidableEq, Repr

/-- Normalisation used by `Deduplicator._compute_content_hash` and
`SQLiteStorage.compute_content_hash`:
`content = f"{title}|{description}".lower().strip()` followed by
`" ".join(content.split())`. -/
def normalize_content (title description : String) : String :=
  let content := (toLowerStr (title ++ "|" ++ description)).data
  let stripped :=
    ((content.dropWhile Char.isWhitespace).reverse.dropWhile
      Char.isWhitespace).reverse
  let chunks := stripped.foldr
    (fun c acc =>
      if c.isWhitespace then [] :: acc
      else match acc with
           | [] => [[c]]
           | w :: ws => (c :: w) :: ws)
    [[]]
  String.mk (List.intercalate [' '] (chunks.filter (fun w => ¬ w.isEmpty)))

/-- Embeds `Deduplicator._compute_content_hash`: the digest (sha256 or md5,
abstracted as `hashHex`) of the normalised `title|description` text. -/
def compute_content_hash (hashHex : String → String)
    (title description : String) : String :=
  hashHex (normalize_content title description)

/-- Embeds `Deduplicator._mark_as_seen`: record the url (if non-empty) and the
content hash. -/
def mark_as_seen (hashHex : String → String) (s : DedupState) (a : Article) :
    DedupState :=
  { seen_urls := if a.url ≠ "" then s.seen_urls ++ [a.url] else s.seen_urls,
    seen_content_hashes :=
      s.seen_content_hashes ++ [compute_content_hash hashHex a.title a.description] }

/-- The duplicate check `Deduplicator._is_duplicate`, abstracted: it reads
the in-run state and the article and either raises (`Except.error`) or
returns whether the article is a duplicate.  (The concrete check dispatches
on the configured method and consults the storage collaborator.) -/
abbrev DupCheck := DedupState → Article → Except Unit Bool

/-- The loop of `Deduplicator.deduplicate`, with the state threaded
explicitly: per article, run the duplicate check inside `try`; a duplicate
is dropped, a non-duplicate is marked seen and kept, and on an internal
error (`except Exception`) the article is kept without touching the
state. -/
def deduplicateGo (check : DupCheck) (hashHex : String → String)
    (s : DedupState) : List Article → List Article × DedupState
  | [] => ([], s)
  | a :: rest =>
    match check s a with
    | .error _ =>
      let r := deduplicateGo check hashHex s rest
      (a :: r.1, r.2)
    | .ok true => deduplicateGo check hashHex s rest
    | .ok false =>
      let r := deduplicateGo check hashHex (mark_as_seen hashHex s a) rest
      (a :: r.1, r.2)

/-- Embeds `Deduplicator.deduplicate` (with deduplication enabled): the kept
articles, in input order. -/
def deduplicate (check : DupCheck) (hashHex : String → String)
    (s : DedupState) (articles : List Article) : List Article :=
  (deduplicateGo check hashHex s articles).1

end Deduplicator

section HelperLemmas

/-- Sorting permutes, so membership is unchanged. -/
theorem mem_pySort {α : Type _} {r : α → α → Prop} [DecidableRel r]
    {a : α} {l : List α} : a ∈ pySort r l ↔ a ∈ l :=
  (List.perm_insertionSort r l).mem_iff

/-- Sorting preserves length. -/
theorem length_pySort {α : Type _} {r : α → α → Prop} [DecidableRel r]
    (l : List α) : (pySort r l).length = l.length :=
  (List.perm_insertionSort r l).length_eq

/-- The test `urlSelected` is exactly membership of the url in the selected urls. -/
theorem urlSelected_iff {a : Article} {sel : List Article} :
    urlSelected a sel = true ↔ a.url ∈ urlsOf sel := by
  simp only [urlSelected, List.any_eq_true, beq_iff_eq, urlsOf, List.mem_map]

theorem urlSelected_eq_false {a : Article} {sel : List Article} :
    urlSelected a sel = false ↔ a.url ∉ urlsOf sel := by
  rw [← urlSelected_iff]
  cases urlSelected a sel <;> simp

end HelperLemmas

/-- Claim C8: Content-hash stability: the digest computed by
`Deduplicator._compute_content_hash` depends only on the normalised
(lower-cased, stripped, whitespace-collapsed) `title|description` text, so
any two title/description pairs that normalise to the same text receive the
same digest, whatever digest function (sha256/md5) is configured. -/
theorem content_hash_stability (hashHex : String → String)
    (t₁ d₁ t₂ d₂ : String)
    (h : Deduplicator.normalize_content t₁ d₁ =
         Deduplicator.normalize_content t₂ d₂) :
    Deduplicator.compute_content_hash hashHex t₁ d₁ =
      Deduplicator.compute_content_hash hashHex t₂ d₂ :=
  congrArg hashHex h

/-- Claim C8, witness: The claim's instance: `hash("Foo  Bar", "x")` equals
`hash("foo bar", "x")` (both normalise to `"foo bar|x"`). -/
theorem content_hash_stability_witness :
    Deduplicator.compute_content_hash id "Foo  Bar" "x" =
      Deduplicator.compute_content_hash id "foo bar" "x" :=
  content_hash_stability id "Foo  Bar" "x" "foo bar" "x" (by decide)

namespace Deduplicator

/-- Processing an appended batch is processing the two parts in sequence. -/
theorem deduplicateGo_append (check : DupCheck) (hashHex : String → String)
    (l₁ l₂ : List Article) :
    ∀ s, deduplicateGo check hashHex s (l₁ ++ l₂) =
      ((deduplicateGo check hashHex s l₁).1 ++
        (deduplicateGo check hashHex (deduplicateGo check hashHex s l₁).2 l₂).1,
       (deduplicateGo check hashHex (deduplicateGo check hashHex s l₁).2 l₂).2) := by
  induction l₁ with
  | nil => intro s; simp [deduplicateGo]
  | cons a t ih =>
    intro s
    cases hc : check s a with
    | error e => simp [deduplicateGo, hc, ih]
    | ok b => cases b <;> simp [deduplicateGo, hc, ih]

end Deduplicator

/-- Claim C9: If the duplicate check raises an internal error on one article,
`Deduplicator.deduplicate` keeps that article in its output (at its place),
leaves the seen-state untouched by it, and goes on to process the remaining
articles from that same state: an ambiguous failure never drops an item and
never aborts the batch. -/
theorem dedup_error_keeps_article (check : Deduplicator.DupCheck)
    (hashHex : String → String) (s : Deduplicator.DedupState)
    (pre post : List Article) (a : Article)
    (h : check (Deduplicator.deduplicateGo check hashHex s pre).2 a =
         Except.error ()) :
    Deduplicator.deduplicateGo check hashHex s (pre ++ a :: post) =
      ((Deduplicator.deduplicateGo check hashHex s pre).1 ++
        a :: (Deduplicator.deduplicateGo check hashHex
               (Deduplicator.deduplicateGo check hashHex s pre).2 post).1,
       (Deduplicator.deduplicateGo check hashHex
         (Deduplicator.deduplicateGo check hashHex s pre).2 post).2) := by
  rw [Deduplicator.deduplicateGo_append]
  simp [Deduplicator.deduplicateGo, h]

/-- Claim C9, witness: A concrete run: with a check that always raises, both
articles of the batch are kept and the seen-state stays empty. -/
theorem dedup_error_keeps_article_witness :
    Deduplicator.deduplicateGo (fun _ _ => Except.error ()) id {}
        ([] ++ { url := "a" } :: [{ url := "b" }]) =
      ((Deduplicator.deduplicateGo (fun _ _ => Except.error ()) id {} []).1 ++
        { url := "a" } :: (Deduplicator.deduplicateGo (fun _ _ => Except.error ()) id
          (Deduplicator.deduplicateGo (fun _ _ => Except.error ()) id {} []).2
          [{ url := "b" }]).1,
       (Deduplicator.deduplicateGo (fun _ _ => Except.error ()) id
         (Deduplicator.deduplicateGo (fun _ _ => Except.error ()) id {} []).2
         [{ url := "b" }]).2) :=
  dedup_error_keeps_article (fun _ _ => Except.error ()) id {} []
    [{ url := "b" }] { url := "a" } rfl

/-- Articles used by the C5 counterexample: equal timestamps, different
scores. -/
def c5HighScore : Article := { url := "a", published_at := some 100, score := 1 }

def c5LowScore : Article := { url := "b", published_at := some 100, score := 0 }

/-- Claim C5, counterexample: On two articles with equal `published_at`
timestamps, `_sort_articles_by_recency_and_score` puts the LOWER-scoring
article first (the sort key is `(-timestamp, score)` ascending), refuting
the claim that the higher-scoring article precedes the lower-scoring one. -/
theorem sort_recency_score_tie_counterexample :
    CategoryFilter.sort_articles_by_recency_and_score [c5HighScore, c5LowScore] =
      [c5LowScore, c5HighScore] := by
  decide

/-- Claim C5, amended: The tie-break of `_sort_articles_by_recency_and_score`
goes the other way round: among articles with equal timestamps, an article
earlier in the output has a score less than or equal to (not greater than
or equal to) any later one. -/
theorem sort_recency_score_tie_low_first (l : List Article) :
    (CategoryFilter.sort_articles_by_recency_and_score l).Pairwise
      (fun a b => CategoryFilter.articleTs a = CategoryFilter.articleTs b →
        a.score ≤ b.score) := by
  unfold CategoryFilter.sort_articles_by_recency_and_score pySort
  haveI ht : IsTotal Article (fun a b =>
      -(CategoryFilter.articleTs a) < -(CategoryFilter.articleTs b) ∨
        (-(CategoryFilter.articleTs a) = -(CategoryFilter.articleTs b) ∧
          a.score ≤ b.score)) := by
    constructor
    intro a b
    rcases lt_trichotomy (-(CategoryFilter.articleTs a))
      (-(CategoryFilter.articleTs b)) with h | h | h
    · exact Or.inl (Or.inl h)
    · rcases le_total a.score b.score with hs | hs
      · exact Or.inl (Or.inr ⟨h, hs⟩)
      · exact Or.inr (Or.inr ⟨h.symm, hs⟩)
    · exact Or.inr (Or.inl h)
  haveI htr : IsTrans Article (fun a b =>
      -(CategoryFilter.articleTs a) < -(CategoryFilter.articleTs b) ∨
        (-(CategoryFilter.articleTs a) = -(CategoryFilter.articleTs b) ∧
          a.score ≤ b.score)) := by
    constructor
    intro a b c hab hbc
    rcases hab with h₁ | ⟨h₁, hs₁⟩ <;> rcases hbc with h₂ | ⟨h₂, hs₂⟩
    · exact Or.inl (h₁.trans h₂)
    · exact Or.inl (h₂ ▸ h₁)
    · exact Or.inl (h₁ ▸ h₂)
    · exact Or.inr ⟨h₁.trans h₂, hs₁.trans hs₂⟩
  have hs := List.sorted_insertionSort (fun a b =>
      -(CategoryFilter.articleTs a) < -(CategoryFilter.articleTs b) ∨
        (-(CategoryFilter.articleTs a) = -(CategoryFilter.articleTs b) ∧
          a.score ≤ b.score)) l
  refine hs.imp ?_
  intro a b hr hts
  rcases hr with h | ⟨_, h⟩
  · exfalso
    rw [hts] at h
    exact lt_irrefl _ h
  · exact h

/-- The failing input of C1: a single tools article whose title contains an
academic keyword. -/
def c1Article : Article :=
  { url := "u1", title := "New AI paper tool", source := "github_trending_ai" }

set_option maxRecDepth 4000 in
/-- Claim C1: Evaluation at the failing input: with no academic article in the
batch, the step-1 keyword fallback selects the tools article (re-labelled
`academic`) and adds its url to the claimed set, but step 2 selects the top
tools articles without consulting the claimed set — so the very same
article is emitted twice and the output urls are `["u1", "u1"]`, violating
the pairwise-distinct-url invariant. -/
theorem single_channel_duplicate_url_eval :
    urlsOf (CategoryFilter.filter_single_channel [] [] 0 [] [c1Article]) =
      ["u1", "u1"] := by
  decide

/-- The C2/C3 scenario media article shape (classified `media` by default,
no academic/tools/fun keywords in the title). -/
def mediaArticle (u t : String) : Article := { url := u, title := t }

/-- The C2 scenario batch: zero academic, zero tools, six media items. -/
def c2Batch : List Article :=
  [mediaArticle "m1" "alpha", mediaArticle "m2" "beta",
   mediaArticle "m3" "gamma", mediaArticle "m4" "delta",
   mediaArticle "m5" "epsilon", mediaArticle "m6" "zeta"]

set_option maxRecDepth 8000 in
/-- Claim C2, counterexample: In the claim's starvation scenario (no academic, no
tools, six media items), `_filter_single_channel` returns exactly the six
input items: nothing is borrowed from the persistent backlog, no
`get_unsent` records appear, and the output stays short of the target
count (6, not 10). -/
theorem single_channel_no_borrow_eval :
    CategoryFilter.filter_single_channel [] [] 0 [] c2Batch = c2Batch := by
  decide

/-- The C3 batch: eleven media articles. -/
def c3Batch : List Article :=
  [mediaArticle "n01" "alpha", mediaArticle "n02" "beta",
   mediaArticle "n03" "gamma", mediaArticle "n04" "delta",
   mediaArticle "n05" "epsilon", mediaArticle "n06" "zeta",
   mediaArticle "n07" "eta", mediaArticle "n08" "theta",
   mediaArticle "n09" "iota", mediaArticle "n10" "kappa",
   mediaArticle "n11" "lambda"]

set_option maxRecDepth 8000 in
/-- Claim C3, counterexample: With eleven media articles available, the regular
(non-extra) output of `_filter_single_channel` has eleven items — more than
the configured `max_target_count` default of 10, which the allocator never
consults (it fills towards the hard-coded 13..16 range instead). -/
theorem single_channel_exceeds_ten_eval :
    ((CategoryFilter.filter_single_channel [] [] 0 [] c3Batch).filter
      (fun a => ¬ a.is_extra)).length = 11 := by
  decide

namespace CategoryFilter

/-- Step 1 yields at most two articles. -/
theorem selectAcademic_length (articles : List Article) :
    (selectAcademic articles).length ≤ 2 := by
  unfold selectAcademic
  split <;> simp [List.length_take]

/-- Step 2 yields at most three articles. -/
theorem selectTools_length (articles : List Article) :
    (selectTools articles).length ≤ 3 := by
  unfold selectTools
  split <;> simp [List.length_take]

/-- Step 3 yields at most three articles. -/
theorem selectLab_length (articles : List Article) :
    (selectLab articles).length ≤ 3 := by
  unfold selectLab
  split <;> simp [List.length_take]

/-- After steps 1–3 the running result has at most 8 articles. -/
theorem step3Result_length (articles : List Article) :
    (step3Result articles).length ≤ 8 := by
  have h1 := selectAcademic_length articles
  have h2 := selectTools_length articles
  have h3 := selectLab_length articles
  simp only [step3Result, List.length_append]
  omega

/-- Part A of step 4 adds at most `needed0` articles. -/
theorem step4PartA_length (articles : List Article) (r3 : List Article)
    (needed0 : Nat) : (step4PartA articles r3 needed0).length ≤ needed0 := by
  unfold step4PartA
  split_ifs <;> simp [List.length_take]

/-- Part B of step 4 adds at most `needed1` articles. -/
theorem step4PartB_length (articles : List Article) (r4a : List Article)
    (needed1 : Nat) : (step4PartB articles r4a needed1).length ≤ needed1 := by
  unfold step4PartB
  split_ifs <;> simp [List.length_take]

/-- Part C of step 4 adds at most `needed2` articles. -/
theorem step4PartC_length (articles : List Article) (r4a r4b : List Article)
    (needed1 needed2 : Nat) :
    (step4PartC articles r4a r4b needed1 needed2).length ≤ needed2 := by
  unfold step4PartC
  split_ifs <;> simp [List.length_take]

/-- Step 4 never grows the result beyond `max (len before) 13`: every fill
is bounded by the remaining `needed` budget. -/
theorem step4Result_length (articles : List Article) (r3 : List Article) :
    (step4Result articles r3).length ≤ max r3.length 13 := by
  unfold step4Result
  lift_lets
  extract_lets needed0 selA r4a needed1 selB r4b needed2
  have hn0 : needed0 = 13 - r3.length := rfl
  have hA : selA.length ≤ needed0 := step4PartA_length articles r3 needed0
  have hB : selB.length ≤ needed1 := step4PartB_length articles r4a needed1
  have hC : (step4PartC articles r4a r4b needed1 needed2).length ≤ needed2 :=
    step4PartC_length articles r4a r4b needed1 needed2
  have hr4a : r4a.length = r3.length + selA.length := by
    rw [show r4a = r3 ++ selA from rfl, List.length_append]
  have hr4b : r4b.length = r4a.length + selB.length := by
    rw [show r4b = r4a ++ selB from rfl, List.length_append]
  have hn1 : needed1 = needed0 - selA.length := rfl
  have hn2 : needed2 = needed1 - selB.length := rfl
  rw [List.length_append]
  omega

/-- The media fill of step 5 adds at most `additional_needed0` articles. -/
theorem step5MediaAdd_length (articles : List Article) (r4 : List Article)
    (additional_needed0 : Nat) :
    (step5MediaAdd articles r4 additional_needed0).length ≤
      additional_needed0 := by
  unfold step5MediaAdd
  split_ifs <;> simp [List.length_take]

/-- The other-category fill of step 5 adds at most `additional_needed1`
articles. -/
theorem step5OtherAdd_length (articles : List Article) (r4 : List Article)
    (additional_needed1 : Nat) :
    (step5OtherAdd articles r4 additional_needed1).length ≤
      additional_needed1 := by
  unfold step5OtherAdd
  split_ifs <;> simp [List.length_take]

/-- Step 5 never grows the result beyond `max (len before) 16`. -/
theorem step5Result_length (articles : List Article) (r4 : List Article) :
    (step5Result articles r4).length ≤ max r4.length 16 := by
  unfold step5Result
  split
  · lift_lets
    extract_lets additional_needed0 media_to_add
    have hn0 : additional_needed0 = 16 - r4.length := rfl
    have hM : media_to_add.length ≤ additional_needed0 :=
      step5MediaAdd_length articles r4 additional_needed0
    have hO : (step5OtherAdd articles r4
        (additional_needed0 - media_to_add.length)).length ≤
        additional_needed0 - media_to_add.length :=
      step5OtherAdd_length articles r4 (additional_needed0 - media_to_add.length)
    simp only [List.length_append]
    omega
  · omega

/-- The regular selection (steps 1–5) has at most 16 articles. -/
theorem regularSelection_length (articles : List Article) :
    (regularSelection articles).length ≤ 16 := by
  have h3 := step3Result_length articles
  have h4 := step4Result_length articles (step3Result articles)
  have h5 := step5Result_length articles (step4Result articles (step3Result articles))
  unfold regularSelection
  omega

/-- Every model-release extra is tagged `is_extra = True` with
`extra_type = 'new_model_release'`. -/
theorem nmExtras_tagged {kw : List String}
    {matchers : List NewModelReleaseFilter.Matcher} {cutoff : Int}
    {recorded : List String} {articles : List Article} {e : Article}
    (he : e ∈ nmExtras kw matchers cutoff recorded articles) :
    e.is_extra = true ∧ e.extra_type = some "new_model_release" := by
  unfold nmExtras at he
  rw [List.mem_map] at he
  obtain ⟨x, -, rfl⟩ := he
  exact ⟨rfl, rfl⟩

/-- Every fun-GitHub extra is tagged `is_extra = True` with
`extra_type = 'fun_github_project'`. -/
theorem fgExtras_tagged {kw : List String}
    {matchers : List NewModelReleaseFilter.Matcher} {cutoff : Int}
    {recorded : List String} {articles : List Article} {e : Article}
    (he : e ∈ fgExtras kw matchers cutoff recorded articles) :
    e.is_extra = true ∧ e.extra_type = some "fun_github_project" := by
  unfold fgExtras at he
  rw [List.mem_map] at he
  obtain ⟨x, -, rfl⟩ := he
  exact ⟨rfl, rfl⟩

end CategoryFilter

/-- Claim C3, amended: The regular (non-extra) output of
`_filter_single_channel` is bounded — but by the hard-coded fill ceiling of
16, not by the configured `max_target_count` (default 10), which the
single-channel allocator never consults. -/
theorem single_channel_regular_le_sixteen (kw : List String)
    (matchers : List NewModelReleaseFilter.Matcher) (cutoff : Int)
    (recorded : List String) (articles : List Article) :
    ((CategoryFilter.filter_single_channel kw matchers cutoff recorded
        articles).filter (fun a => ¬ a.is_extra)).length ≤ 16 := by
  unfold CategoryFilter.filter_single_channel
  rw [List.filter_append, List.filter_append]
  have hnm : (CategoryFilter.nmExtras kw matchers cutoff recorded
      articles).filter (fun a => ¬ a.is_extra) = [] := by
    rw [List.filter_eq_nil_iff]
    intro e he
    simp [(CategoryFilter.nmExtras_tagged he).1]
  have hfg : (CategoryFilter.fgExtras kw matchers cutoff recorded
      articles).filter (fun a => ¬ a.is_extra) = [] := by
    rw [List.filter_eq_nil_iff]
    intro e he
    simp [(CategoryFilter.fgExtras_tagged he).1]
  rw [hnm, hfg]
  simp only [List.append_nil, List.length_append, List.length_nil]
  calc ((CategoryFilter.regularSelection articles).filter
          (fun a => ¬ a.is_extra)).length + 0
      ≤ (CategoryFilter.regularSelection articles).length + 0 := by
        have := List.length_filter_le (fun a => ¬ a.is_extra)
          (CategoryFilter.regularSelection articles)
        omega
    _ ≤ 16 := by
        have := CategoryFilter.regularSelection_length articles
        omega

namespace CategoryFilter

/-- An element of a take-of-sort is an element of the sorted list. -/
theorem mem_of_take_pySort {r : Article → Article → Prop} [DecidableRel r]
    {l : List Article} {n : Nat} {a : Article}
    (h : a ∈ (pySort r l).take n) : a ∈ l :=
  mem_pySort.mp (List.mem_of_mem_take h)

/-- The url of a member occurs among the urls. -/
theorem url_mem_urlsOf {a : Article} {l : List Article} (h : a ∈ l) :
    a.url ∈ urlsOf l :=
  List.mem_map_of_mem (·.url) h

/-- Urls of a filtered list occur among the urls of the original list. -/
theorem urlsOf_filter_subset {p : Article → Bool} {l : List Article}
    {u : String} (h : u ∈ urlsOf (l.filter p)) : u ∈ urlsOf l := by
  rw [urlsOf, List.mem_map] at h
  obtain ⟨b, hb, rfl⟩ := h
  exact url_mem_urlsOf (List.mem_of_mem_filter hb)

/-- Every article selected in step 1 carries a url of the input batch. -/
theorem selectAcademic_url {articles : List Article} {a : Article}
    (h : a ∈ selectAcademic articles) : a.url ∈ urlsOf articles := by
  unfold selectAcademic at h
  split at h
  · rw [List.mem_map] at h
    obtain ⟨b, hb, rfl⟩ := h
    have hb' : b ∈ articles :=
      List.mem_of_mem_filter (List.mem_of_mem_take hb)
    show b.url ∈ urlsOf articles
    exact url_mem_urlsOf hb'
  · exact url_mem_urlsOf (List.mem_of_mem_filter (mem_of_take_pySort h))

/-- Every article selected in step 2 is an article of the input batch. -/
theorem selectTools_mem {articles : List Article} {a : Article}
    (h : a ∈ selectTools articles) : a ∈ articles := by
  unfold selectTools at h
  split at h
  · simp at h
  · exact List.mem_of_mem_filter (mem_of_take_pySort h)

/-- Every article selected in step 3 is an article of the input batch. -/
theorem selectLab_mem {articles : List Article} {a : Article}
    (h : a ∈ selectLab articles) : a ∈ articles := by
  unfold selectLab at h
  split at h
  · simp at h
  · exact List.mem_of_mem_filter (mem_of_take_pySort h)

/-- Every article added by step 4 part A is an article of the input batch. -/
theorem step4PartA_mem {articles r3 : List Article} {needed0 : Nat}
    {a : Article} (h : a ∈ step4PartA articles r3 needed0) : a ∈ articles := by
  unfold step4PartA at h
  split_ifs at h <;> first
  | exact List.mem_of_mem_filter (List.mem_of_mem_filter (mem_of_take_pySort h))
  | simp at h

/-- Every article added by step 4 part B is an article of the input batch. -/
theorem step4PartB_mem {articles r4a : List Article} {needed1 : Nat}
    {a : Article} (h : a ∈ step4PartB articles r4a needed1) : a ∈ articles := by
  unfold step4PartB at h
  split_ifs at h <;> first
  | exact List.mem_of_mem_filter (List.mem_of_mem_filter (mem_of_take_pySort h))
  | simp at h

/-- Every article added by step 4 part C is an article of the input batch. -/
theorem step4PartC_mem {articles r4a r4b : List Article}
    {needed1 needed2 : Nat} {a : Article}
    (h : a ∈ step4PartC articles r4a r4b needed1 needed2) : a ∈ articles := by
  unfold step4PartC at h
  split_ifs at h <;> first
  | exact List.mem_of_mem_filter (mem_of_take_pySort h)
  | simp at h

/-- Every article added by step 5's media fill is an article of the input
batch. -/
theorem step5MediaAdd_mem {articles r4 : List Article} {n : Nat} {a : Article}
    (h : a ∈ step5MediaAdd articles r4 n) : a ∈ articles := by
  unfold step5MediaAdd at h
  split_ifs at h <;> first
  | exact List.mem_of_mem_filter (List.mem_of_mem_filter (mem_of_take_pySort h))
  | simp at h

/-- Every article added by step 5's other-category fill is an article of the
input batch. -/
theorem step5OtherAdd_mem {articles r4 : List Article} {n : Nat} {a : Article}
    (h : a ∈ step5OtherAdd articles r4 n) : a ∈ articles := by
  unfold step5OtherAdd at h
  split_ifs at h <;> first
  | exact List.mem_of_mem_filter (List.mem_of_mem_filter (mem_of_take_pySort h))
  | simp at h

/-- Every article of the regular selection carries a url of the input
batch. -/
theorem regularSelection_url {articles : List Article} {a : Article}
    (h : a ∈ regularSelection articles) : a.url ∈ urlsOf articles := by
  unfold regularSelection step5Result at h
  have h4 : a ∈ step4Result articles (step3Result articles) →
      a.url ∈ urlsOf articles := by
    intro h4
    unfold step4Result at h4
    simp only [List.append_assoc, List.mem_append] at h4
    rcases h4 with h4 | h4 | h4 | h4
    · unfold step3Result at h4
      simp only [List.append_assoc, List.mem_append] at h4
      rcases h4 with h4 | h4 | h4
      · exact selectAcademic_url h4
      · exact url_mem_urlsOf (selectTools_mem h4)
      · exact url_mem_urlsOf (selectLab_mem h4)
    · exact url_mem_urlsOf (step4PartA_mem h4)
    · exact url_mem_urlsOf (step4PartB_mem h4)
    · exact url_mem_urlsOf (step4PartC_mem h4)
  split at h
  · simp only [List.append_assoc, List.mem_append] at h
    rcases h with h | h | h
    · exact h4 h
    · exact url_mem_urlsOf (step5MediaAdd_mem h)
    · exact url_mem_urlsOf (step5OtherAdd_mem h)
  · exact h4 h

end CategoryFilter

namespace NewModelReleaseFilter

/-- Every article returned by the detector loop is either already
accumulated or carries the url of one of the scanned articles. -/
theorem filterGo_url {kw : List String} {matchers : List Matcher}
    {cutoff : Int} {max_extra : Nat} :
    ∀ {l : List Article} {recorded : List String} {acc : List Article}
      {a : Article},
      a ∈ (filterGo kw matchers cutoff max_extra recorded acc l).1 →
      a ∈ acc ∨ a.url ∈ urlsOf l := by
  intro l
  induction l with
  | nil =>
    intro recorded acc a h
    exact Or.inl h
  | cons b t ih =>
    intro recorded acc a h
    unfold filterGo at h
    dsimp only at h
    split_ifs at h <;>
      first
      | -- the break branch: the output is `acc` plus the tagged copy of `b`
        (rcases List.mem_append.mp h with h | h
         · exact Or.inl h
         · rw [List.mem_singleton] at h
           subst h
           exact Or.inr (by simp [urlsOf, nmTag]))
      | -- the skip branches: the accumulator is unchanged
        (rcases ih h with h' | h'
         · exact Or.inl h'
         · exact Or.inr (by simp [urlsOf] at h' ⊢; tauto))
      | -- the recursive branch, with the tagged copy of `b` accumulated
        (rcases ih h with h' | h'
         · rcases List.mem_append.mp h' with h'' | h''
           · exact Or.inl h''
           · rw [List.mem_singleton] at h''
             subst h''
             exact Or.inr (by simp [urlsOf, nmTag])
         · exact Or.inr (by simp [urlsOf] at h' ⊢; tauto))

end NewModelReleaseFilter

namespace FunGithubFilter

/-- Every article returned by the fun-GitHub filter carries the url of one
of the scanned articles. -/
theorem filter_fun_github_projects_url {l : List Article} {a : Article}
    (h : a ∈ filter_fun_github_projects l) : a.url ∈ urlsOf l := by
  unfold filter_fun_github_projects at h
  dsimp only at h
  have h' :=
    CategoryFilter.mem_of_take_pySort (r := fun a b => b.score ≤ a.score) h
  rw [List.mem_map] at h'
  obtain ⟨b, hb, rfl⟩ := h'
  have hb' : b ∈ l := List.mem_of_mem_filter hb
  show b.url ∈ urlsOf l
  exact CategoryFilter.url_mem_urlsOf hb'

end FunGithubFilter

namespace NewModelReleaseFilter

/-- The detector loop emits at most `max_extra` articles (the `break` fires
as soon as the accumulator reaches `max_extra`). -/
theorem filterGo_length {kw : List String} {matchers : List Matcher}
    {cutoff : Int} {max_extra : Nat} :
    ∀ {l : List Article} {recorded : List String} {acc : List Article},
      acc.length < max_extra →
      ((filterGo kw matchers cutoff max_extra recorded acc l).1).length ≤
        max_extra := by
  intro l
  induction l with
  | nil =>
    intro recorded acc hacc
    exact Nat.le_of_lt hacc
  | cons b t ih =>
    intro recorded acc hacc
    unfold filterGo
    dsimp only
    split_ifs <;> first
    | exact ih hacc
    | (refine ih ?_
       simp only [not_le, List.length_append, List.length_singleton] at *
       omega)
    | (simp only [List.length_append, List.length_singleton]
       omega)

end NewModelReleaseFilter

namespace CategoryFilter

/-- At most 3 model-release extras are injected. -/
theorem nmExtras_length (kw : List String)
    (matchers : List NewModelReleaseFilter.Matcher) (cutoff : Int)
    (recorded : List String) (articles : List Article) :
    (nmExtras kw matchers cutoff recorded articles).length ≤ 3 := by
  unfold nmExtras
  dsimp only
  rw [List.length_map]
  split
  · simp
  · exact NewModelReleaseFilter.filterGo_length (by simp)

/-- At most 2 fun-GitHub extras are injected. -/
theorem fgExtras_length (kw : List String)
    (matchers : List NewModelReleaseFilter.Matcher) (cutoff : Int)
    (recorded : List String) (articles : List Article) :
    (fgExtras kw matchers cutoff recorded articles).length ≤ 2 := by
  unfold fgExtras
  dsimp only
  rw [List.length_map]
  split
  · simp
  · unfold FunGithubFilter.filter_fun_github_projects
    dsimp only
    simp [List.length_take]

/-- Every model-release extra has a url of the input batch, and that url is
not among the urls of the regular selection (the detector only scans
articles whose url was not claimed). -/
theorem nmExtras_url {kw : List String}
    {matchers : List NewModelReleaseFilter.Matcher} {cutoff : Int}
    {recorded : List String} {articles : List Article} {e : Article}
    (he : e ∈ nmExtras kw matchers cutoff recorded articles) :
    e.url ∈ urlsOf articles ∧
      e.url ∉ urlsOf (regularSelection articles) := by
  unfold nmExtras at he
  dsimp only at he
  rw [List.mem_map] at he
  obtain ⟨x, hx, rfl⟩ := he
  show x.url ∈ urlsOf articles ∧ x.url ∉ urlsOf (regularSelection articles)
  split at hx
  · simp at hx
  · rcases NewModelReleaseFilter.filterGo_url hx with h | h
    · simp at h
    · rw [urlsOf, List.mem_map] at h
      obtain ⟨b, hb, hurl⟩ := h
      rw [List.mem_filter] at hb
      have hbn : urlSelected b (regularSelection articles) = false := by
        have := hb.2
        simp only [decide_eq_true_eq] at this
        cases hsel : urlSelected b (regularSelection articles)
        · rfl
        · exact absurd hsel this
      rw [← hurl]
      exact ⟨url_mem_urlsOf hb.1, urlSelected_eq_false.mp hbn⟩

/-- Every fun-GitHub extra has a url of the input batch, and that url is not
among the urls of the regular selection (nor of the model-release
extras). -/
theorem fgExtras_url {kw : List String}
    {matchers : List NewModelReleaseFilter.Matcher} {cutoff : Int}
    {recorded : List String} {articles : List Article} {e : Article}
    (he : e ∈ fgExtras kw matchers cutoff recorded articles) :
    e.url ∈ urlsOf articles ∧
      e.url ∉ urlsOf (regularSelection articles ++
        nmExtras kw matchers cutoff recorded articles) := by
  unfold fgExtras at he
  dsimp only at he
  rw [List.mem_map] at he
  obtain ⟨x, hx, rfl⟩ := he
  show x.url ∈ urlsOf articles ∧ x.url ∉ _
  split at hx
  · simp at hx
  · have h := FunGithubFilter.filter_fun_github_projects_url hx
    rw [urlsOf, List.mem_map] at h
    obtain ⟨b, hb, hurl⟩ := h
    rw [List.mem_filter] at hb
    have hbn : urlSelected b (regularSelection articles ++
        nmExtras kw matchers cutoff recorded articles) = false := by
      have := hb.2
      simp only [decide_eq_true_eq] at this
      cases hsel : urlSelected b _
      · rfl
      · exact absurd hsel this
    rw [← hurl]
    exact ⟨url_mem_urlsOf hb.1, urlSelected_eq_false.mp hbn⟩

end CategoryFilter

/-- Claim C2, amended: When the candidate pools run short,
`_filter_single_channel` does NOT borrow from the persistent backlog: it
never invokes the storage's `get_unsent` query, and every output item
carries a url of the input batch — the output is simply left short of the
target.  (In the claim's scenario the output is exactly the six media
items; see the counterexample theorem.) -/
theorem single_channel_output_urls_from_batch (kw : List String)
    (matchers : List NewModelReleaseFilter.Matcher) (cutoff : Int)
    (recorded : List String) (articles : List Article) :
    urlsOf (CategoryFilter.filter_single_channel kw matchers cutoff recorded
      articles) ⊆ urlsOf articles := by
  intro u hu
  rw [urlsOf, List.mem_map] at hu
  obtain ⟨a, ha, rfl⟩ := hu
  unfold CategoryFilter.filter_single_channel at ha
  simp only [List.mem_append] at ha
  rcases ha with (ha | ha) | ha
  · exact CategoryFilter.regularSelection_url ha
  · exact (CategoryFilter.nmExtras_url ha).1
  · exact (CategoryFilter.fgExtras_url ha).1

/-- Claim C6: The overflow detectors only ever append: the single-channel output
is the regular selection followed by the extras; injecting `k` qualifying
extras grows the output length by exactly `k`; at most 3 model-release and
2 fun-GitHub extras are injected; every injected item is tagged
`is_extra = True` with its `extra_type` discriminator; and no injected
item's url equals a url already present in the regular (base) output. -/
theorem single_channel_overflow_extras (kw : List String)
    (matchers : List NewModelReleaseFilter.Matcher) (cutoff : Int)
    (recorded : List String) (articles : List Article) :
    CategoryFilter.filter_single_channel kw matchers cutoff recorded articles =
      CategoryFilter.regularSelection articles ++
        (CategoryFilter.nmExtras kw matchers cutoff recorded articles ++
         CategoryFilter.fgExtras kw matchers cutoff recorded articles) ∧
    (CategoryFilter.filter_single_channel kw matchers cutoff recorded
      articles).length =
      (CategoryFilter.regularSelection articles).length +
        ((CategoryFilter.nmExtras kw matchers cutoff recorded articles).length +
         (CategoryFilter.fgExtras kw matchers cutoff recorded articles).length) ∧
    (CategoryFilter.nmExtras kw matchers cutoff recorded articles).length ≤ 3 ∧
    (CategoryFilter.fgExtras kw matchers cutoff recorded articles).length ≤ 2 ∧
    (∀ e ∈ CategoryFilter.nmExtras kw matchers cutoff recorded articles,
      e.is_extra = true ∧ e.extra_type = some "new_model_release" ∧
        e.url ∉ urlsOf (CategoryFilter.regularSelection articles)) ∧
    (∀ e ∈ CategoryFilter.fgExtras kw matchers cutoff recorded articles,
      e.is_extra = true ∧ e.extra_type = some "fun_github_project" ∧
        e.url ∉ urlsOf (CategoryFilter.regularSelection articles)) := by
  refine ⟨?_, ?_, CategoryFilter.nmExtras_length kw matchers cutoff recorded articles,
    CategoryFilter.fgExtras_length kw matchers cutoff recorded articles, ?_, ?_⟩
  · unfold CategoryFilter.filter_single_channel
    rw [List.append_assoc]
  · unfold CategoryFilter.filter_single_channel
    simp [List.length_append]
  · intro e he
    obtain ⟨h₁, h₂⟩ := CategoryFilter.nmExtras_tagged he
    exact ⟨h₁, h₂, (CategoryFilter.nmExtras_url he).2⟩
  · intro e he
    obtain ⟨h₁, h₂⟩ := CategoryFilter.fgExtras_tagged he
    refine ⟨h₁, h₂, fun hmem => ?_⟩
    exact (CategoryFilter.fgExtras_url he).2 (by
      rw [urlsOf, List.map_append, List.mem_append]
      exact Or.inl hmem)

namespace TimeFilter

/-- Sorting preserves length. -/
theorem length_sort_articles (l : List Article) :
    (sort_articles l).length = l.length :=
  length_pySort l

/-- Sorting preserves membership. -/
theorem mem_sort_articles {a : Article} {l : List Article} :
    a ∈ sort_articles l ↔ a ∈ l :=
  mem_pySort

/-- Every article in the recent bucket of `classify` carries the `recent`
annotation. -/
theorem classify_fst_recent {cutoff today_end : Int} {articles : List Article} :
    ∀ a ∈ (classify cutoff today_end articles).1,
      (a.time_group == some GROUP_RECENT) = true := by
  intro a ha
  unfold classify at ha
  dsimp only at ha
  exact (List.mem_filter.mp ha).2

/-- If a list starts with `k ≤ n` recent-annotated articles, its `n`-prefix
contains at least `k` recent articles. -/
theorem recent_prefix_bound {base rest : List Article} {k n : Nat}
    (hk : base.length = k) (hkn : k ≤ n)
    (hbase : ∀ a ∈ base, (a.time_group == some GROUP_RECENT) = true) :
    k ≤ recentCount ((base ++ rest).take n) := by
  have hsplit : (base ++ rest).take n = base ++ rest.take (n - base.length) := by
    rw [List.take_append_eq_append_take, List.take_of_length_le (by omega)]
  rw [hsplit, recentCount, List.countP_append]
  have hfull : base.countP (fun a => a.time_group == some GROUP_RECENT) =
      base.length := List.countP_eq_length.mpr hbase
  omega

end TimeFilter

/-- Claim C4: Temporal-ratio property of `TimeFilter.filter_for_daily_output`
with the defaults N = 10, R_target = 0.80, R_min = 0.70: whenever at least
`N·R_target = 8` input articles classify as recent, the output's recent
fraction is at least 0.80 (i.e. `4·|out| ≤ 5·recent(out)`); whenever the
recent count is at least `N·R_min = 7` but below 8, the fraction is at
least 0.70 (i.e. `7·|out| ≤ 10·recent(out)`). -/
theorem temporal_ratio_tiers (cutoff today_end : Int) (articles : List Article) :
    (8 ≤ ((TimeFilter.classify cutoff today_end articles).1).length →
      4 * (TimeFilter.filter_for_daily_output cutoff today_end articles).length ≤
        5 * TimeFilter.recentCount
          (TimeFilter.filter_for_daily_output cutoff today_end articles)) ∧
    (7 ≤ ((TimeFilter.classify cutoff today_end articles).1).length ∧
        ((TimeFilter.classify cutoff today_end articles).1).length < 8 →
      7 * (TimeFilter.filter_for_daily_output cutoff today_end articles).length ≤
        10 * TimeFilter.recentCount
          (TimeFilter.filter_for_daily_output cutoff today_end articles)) := by
  unfold TimeFilter.filter_for_daily_output
  lift_lets
  extract_lets classified recent_sorted historical_sorted
  have hcl : classified = TimeFilter.classify cutoff today_end articles := rfl
  have hrs : recent_sorted = TimeFilter.sort_articles classified.1 := rfl
  have hrslen : recent_sorted.length = classified.1.length := by
    rw [hrs]
    exact TimeFilter.length_sort_articles _
  have hrec : ∀ a ∈ recent_sorted,
      (a.time_group == some TimeFilter.GROUP_RECENT) = true := by
    intro a ha
    rw [hrs, TimeFilter.mem_sort_articles] at ha
    exact TimeFilter.classify_fst_recent a (hcl ▸ ha)
  dsimp only
  simp only [TimeFilter.target_recent_primary, TimeFilter.target_recent_fallback,
    TimeFilter.target_historical_primary, TimeFilter.target_historical_fallback,
    TimeFilter.daily_target_count]
  constructor
  · intro h8
    rw [← hcl] at h8
    have h8' : 8 ≤ recent_sorted.length := by omega
    rw [if_pos h8']
    have hsrlen : (recent_sorted.take 8).length = 8 := by
      rw [List.length_take]
      omega
    have hsrrec : ∀ a ∈ recent_sorted.take 8,
        (a.time_group == some TimeFilter.GROUP_RECENT) = true :=
      fun a ha => hrec a (List.mem_of_mem_take ha)
    have hout : ∀ rest : List Article,
        4 * (((recent_sorted.take 8 ++ rest)).take 10).length ≤
          5 * TimeFilter.recentCount
            (((recent_sorted.take 8 ++ rest)).take 10) := by
      intro rest
      have hcnt := @TimeFilter.recent_prefix_bound (recent_sorted.take 8)
        rest 8 10 hsrlen (by omega) hsrrec
      have hlen : (((recent_sorted.take 8 ++ rest)).take 10).length ≤ 10 := by
        rw [List.length_take]
        omega
      omega
    split
    · rw [List.append_assoc]
      exact hout _
    · exact hout _
  · rintro ⟨h7, hlt⟩
    rw [← hcl] at h7 hlt
    have hcond1 : ¬ (8 ≤ recent_sorted.length) := by omega
    have hcond2 : 7 ≤ recent_sorted.length := by omega
    rw [if_neg hcond1, if_pos hcond2]
    have hsrlen : (recent_sorted.take 7).length = 7 := by
      rw [List.length_take]
      omega
    have hsrrec : ∀ a ∈ recent_sorted.take 7,
        (a.time_group == some TimeFilter.GROUP_RECENT) = true :=
      fun a ha => hrec a (List.mem_of_mem_take ha)
    have hout : ∀ rest : List Article,
        7 * (((recent_sorted.take 7 ++ rest)).take 10).length ≤
          10 * TimeFilter.recentCount
            (((recent_sorted.take 7 ++ rest)).take 10) := by
      intro rest
      have hcnt := @TimeFilter.recent_prefix_bound (recent_sorted.take 7)
        rest 7 10 hsrlen (by omega) hsrrec
      have hlen : (((recent_sorted.take 7 ++ rest)).take 10).length ≤ 10 := by
        rw [List.length_take]
        omega
      omega
    split
    · rw [List.append_assoc]
      exact hout _
    · exact hout _

/-- The C4 witness batch: eight recent articles. -/
def c4Batch : List Article :=
  List.replicate 8 { published_at := some 500 }

/-- Claim C4, witness: At a batch of eight recent articles (cutoff 0, end of day
1000), the tier-1 hypothesis holds and the output recent fraction is at
least 0.80. -/
theorem temporal_ratio_tiers_witness :
    4 * (TimeFilter.filter_for_daily_output 0 1000 c4Batch).length ≤
      5 * TimeFilter.recentCount
        (TimeFilter.filter_for_daily_output 0 1000 c4Batch) :=
  (temporal_ratio_tiers 0 1000 c4Batch).1 (by decide)

namespace ThresholdFilter

/-- The source-priority sub-score lies in [0,1] (all table values do, and
the default is 0.5). -/
theorem score_source_priority_bounds (a : Article) :
    0 ≤ score_source_priority a ∧ score_source_priority a ≤ 1 := by
  unfold score_source_priority
  cases hfind : priority_map.find? (fun kv => strContains a.source kv.1) with
  | none => norm_num
  | some kv =>
    have hmem := List.mem_of_find?_eq_some hfind
    fin_cases hmem <;> norm_num

/-- The keyword-match sub-score lies in [0,1]. -/
theorem score_keyword_match_bounds (cfg : TFConfig) (a : Article) :
    0 ≤ score_keyword_match cfg a ∧ score_keyword_match cfg a ≤ 1 := by
  unfold score_keyword_match
  split
  · constructor
    · apply le_min _ (by norm_num)
      positivity
    · exact min_le_right _ _
  · constructor
    · apply le_min _ (by norm_num)
      positivity
    · exact min_le_right _ _

/-- The recency sub-score lies in [0,1]. -/
theorem score_recency_bounds (now : Int) (a : Article) :
    0 ≤ score_recency now a ∧ score_recency now a ≤ 1 := by
  unfold score_recency
  cases a.published_at with
  | none => norm_num
  | some t =>
    dsimp only
    split_ifs <;> norm_num

/-- With non-negative engagement counters, the engagement sub-score lies in
[0,1]. -/
theorem score_engagement_bounds (a : Article) (h1 : 0 ≤ a.stars)
    (h2 : 0 ≤ a.today_stars) (h3 : 0 ≤ a.likes) (h4 : 0 ≤ a.downloads) :
    0 ≤ score_engagement a ∧ score_engagement a ≤ 1 := by
  unfold score_engagement
  constructor
  · apply le_min _ (by norm_num)
    have g1 : (0 : ℚ) ≤ (a.stars : ℚ) := by exact_mod_cast h1
    have g2 : (0 : ℚ) ≤ (a.today_stars : ℚ) := by exact_mod_cast h2
    have g3 : (0 : ℚ) ≤ (a.likes : ℚ) := by exact_mod_cast h3
    have g4 : (0 : ℚ) ≤ (a.downloads : ℚ) := by exact_mod_cast h4
    nlinarith
  · exact min_le_right _ _

/-- Arithmetic fact: `⌊2001/2⌋ = 1000` over the rationals. -/
theorem floor_two_thousand_one_halves : ⌊(2001 : ℚ) / 2⌋ = (1000 : ℤ) := by
  rw [Int.floor_eq_iff]
  constructor <;> norm_num

/-- Rounding to three decimals keeps a value of [0,1] inside [0,1]. -/
theorem pyRound3_bounds {q : ℚ} (h0 : 0 ≤ q) (h1 : q ≤ 1) :
    0 ≤ pyRound3 q ∧ pyRound3 q ≤ 1 := by
  unfold pyRound3
  rw [round_eq]
  constructor
  · apply div_nonneg _ (by norm_num)
    have : (0 : ℤ) ≤ ⌊q * 1000 + 1 / 2⌋ := by
      apply Int.le_floor.mpr
      push_cast
      linarith
    exact_mod_cast this
  · rw [div_le_one (by norm_num)]
    have hle : ⌊q * 1000 + 1 / 2⌋ ≤ ⌊(2001 : ℚ) / 2⌋ :=
      Int.floor_le_floor (by linarith)
    rw [floor_two_thousand_one_halves] at hle
    exact_mod_cast hle

/-- With the default weight map 0.3/0.3/0.2/0.2 and non-negative engagement
counters, the composite score lies in [0,1]. -/
theorem calculate_score_bounds (cfg : TFConfig) (now : Int) (a : Article)
    (hw : cfg.w_source_priority = 0.3 ∧ cfg.w_keyword_match = 0.3 ∧
      cfg.w_recency = 0.2 ∧ cfg.w_engagement = 0.2)
    (h1 : 0 ≤ a.stars) (h2 : 0 ≤ a.today_stars) (h3 : 0 ≤ a.likes)
    (h4 : 0 ≤ a.downloads) :
    0 ≤ calculate_score cfg now a ∧ calculate_score cfg now a ≤ 1 := by
  obtain ⟨hsp0, hsp1⟩ := score_source_priority_bounds a
  obtain ⟨hkm0, hkm1⟩ := score_keyword_match_bounds cfg a
  obtain ⟨hrc0, hrc1⟩ := score_recency_bounds now a
  obtain ⟨hen0, hen1⟩ := score_engagement_bounds a h1 h2 h3 h4
  obtain ⟨hw1, hw2, hw3, hw4⟩ := hw
  unfold calculate_score
  rw [hw1, hw2, hw3, hw4]
  exact pyRound3_bounds (by nlinarith) (by nlinarith)

end ThresholdFilter

/-- Claim C7: After `ThresholdFilter.filter` runs with the default weight map
0.3/0.3/0.2/0.2 and non-negative engagement counters, every article in its
output carries a `score` in [0,1]; in the embedding the scoring computation
is total, so every output article is scored (the source's per-item `except`
fallback, which would keep an unscored article, is unreachable). -/
theorem threshold_filter_scores_bounded (cfg : ThresholdFilter.TFConfig)
    (now : Int) (articles : List Article)
    (hw : cfg.w_source_priority = 0.3 ∧ cfg.w_keyword_match = 0.3 ∧
      cfg.w_recency = 0.2 ∧ cfg.w_engagement = 0.2)
    (hc : ∀ a ∈ articles, 0 ≤ a.stars ∧ 0 ≤ a.today_stars ∧ 0 ≤ a.likes ∧
      0 ≤ a.downloads) :
    ∀ a ∈ ThresholdFilter.filterArticles cfg now articles,
      0 ≤ a.score ∧ a.score ≤ 1 := by
  intro a ha
  unfold ThresholdFilter.filterArticles at ha
  dsimp only at ha
  rw [mem_pySort, List.mem_filterMap] at ha
  obtain ⟨b, hb, hfb⟩ := ha
  split at hfb
  · rw [Option.some_inj] at hfb
    subst hfb
    obtain ⟨hcb1, hcb2, hcb3, hcb4⟩ := hc b hb
    exact ThresholdFilter.calculate_score_bounds cfg now b hw hcb1 hcb2 hcb3 hcb4
  · exact absurd hfb (by simp)

/-- The C7 witness configuration (all defaults, empty keyword list). -/
def c7Config : ThresholdFilter.TFConfig := {}

/-- The C7 witness article: a fresh arXiv item with four matched keyword
categories and 1000 stars, whose sub-scores all evaluate to their maxima. -/
def c7Article : Article :=
  { source := "arXiv", matched_categories := ["a", "b", "c", "d"],
    published_at := some 0, stars := 1000 }

/-- The composite score of the witness article is exactly 1. -/
theorem c7Article_score :
    ThresholdFilter.calculate_score c7Config 0 c7Article = 1 := by
  have harx : strContains "arXiv" "arXiv" = true := by decide
  have hsp : ThresholdFilter.score_source_priority c7Article = 1 := by
    unfold ThresholdFilter.score_source_priority
    simp [c7Article, ThresholdFilter.priority_map, List.find?, harx]
    norm_num
  have hkm : ThresholdFilter.score_keyword_match c7Config c7Article = 1 := by
    unfold ThresholdFilter.score_keyword_match
    rw [if_pos (by decide)]
    simp [c7Article]
    norm_num
  have hrc : ThresholdFilter.score_recency 0 c7Article = 1 := by
    unfold ThresholdFilter.score_recency
    simp [c7Article]
    norm_num
  have hen : ThresholdFilter.score_engagement c7Article = 1 := by
    unfold ThresholdFilter.score_engagement
    simp [c7Article]
    norm_num
  unfold ThresholdFilter.calculate_score
  rw [hsp, hkm, hrc, hen]
  have hsum : c7Config.w_source_priority * 1 + c7Config.w_keyword_match * 1 +
      c7Config.w_recency * 1 + c7Config.w_engagement * 1 = 1 := by
    simp [c7Config]
    norm_num
  rw [hsum]
  unfold ThresholdFilter.pyRound3
  rw [show (1 : ℚ) * 1000 = ((1000 : ℤ) : ℚ) by norm_num, round_intCast]
  norm_num

/-- The scored copy of the C7 witness article as it leaves the filter. -/
def c7Scored : Article := { c7Article with score := 1 }

/-- The C7 witness article passes the admission thresholds and leaves the
filter as `c7Scored`. -/
theorem c7_filter_eval :
    ThresholdFilter.filterArticles c7Config 0 [c7Article] = [c7Scored] := by
  have harx : strContains "arXiv" "arXiv" = true := by decide
  unfold ThresholdFilter.filterArticles
  dsimp only
  have hscored : ({ c7Article with
      score := ThresholdFilter.calculate_score c7Config 0 c7Article } :
      Article) = c7Scored := by
    rw [c7Article_score]
    rfl
  simp only [List.filterMap_cons, List.filterMap_nil, hscored]
  have hmeets : ThresholdFilter.meets_thresholds c7Config 0 c7Scored = true := by
    unfold ThresholdFilter.meets_thresholds
      ThresholdFilter.meets_content_thresholds
      ThresholdFilter.within_time_window
    rw [if_neg (by norm_num [c7Scored, c7Article, c7Config])]
    simp [c7Scored, c7Article, c7Config, harx]
  rw [hmeets]
  simp [pySort, List.insertionSort]

/-- Claim C7, witness: A concrete run at the witness batch: the output article is
scored and its score lies in [0,1]. -/
theorem threshold_filter_scores_bounded_witness :
    0 ≤ c7Scored.score ∧ c7Scored.score ≤ 1 :=
  threshold_filter_scores_bounded c7Config 0 [c7Article]
    ⟨rfl, rfl, rfl, rfl⟩ (by decide) c7Scored
    (by rw [c7_filter_eval]; exact List.mem_singleton.mpr rfl)

namespace NewModelReleaseFilter

/-- Invariants of the detector loop, relative to the recorded-key state:
the state only grows; every emitted article's key is recorded afterwards;
every emitted article is either pre-accumulated or has a key that was not
yet recorded; and the emitted articles have pairwise distinct keys. -/
theorem filterGo_spec {kw : List String} {matchers : List Matcher}
    {cutoff : Int} {max_extra : Nat} :
    ∀ (l : List Article) (recorded : List String) (acc : List Article),
      acc.Pairwise (fun x y =>
        articleModelKey matchers x ≠ articleModelKey matchers y) →
      (∀ x ∈ acc, articleModelKey matchers x ∈ recorded) →
      (∀ k ∈ recorded,
        k ∈ (filterGo kw matchers cutoff max_extra recorded acc l).2) ∧
      (∀ x ∈ (filterGo kw matchers cutoff max_extra recorded acc l).1,
        articleModelKey matchers x ∈
          (filterGo kw matchers cutoff max_extra recorded acc l).2) ∧
      (∀ x ∈ (filterGo kw matchers cutoff max_extra recorded acc l).1,
        x ∈ acc ∨ articleModelKey matchers x ∉ recorded) ∧
      (filterGo kw matchers cutoff max_extra recorded acc l).1.Pairwise
        (fun x y =>
          articleModelKey matchers x ≠ articleModelKey matchers y) := by
  intro l
  induction l with
  | nil =>
    intro recorded acc hacc₁ hacc₂
    exact ⟨fun _ hk => hk, hacc₂, fun x hx => Or.inl hx, hacc₁⟩
  | cons b t ih =>
    intro recorded acc hacc₁ hacc₂
    unfold filterGo
    dsimp only
    by_cases h₁ : ¬ is_new_model_release kw matchers b = true
    · rw [if_pos h₁]
      exact ih recorded acc hacc₁ hacc₂
    · rw [if_neg h₁]
      by_cases h₂ : (match b.published_at with
          | some t => decide (t < cutoff)
          | none => false) = true
      · rw [if_pos h₂]
        exact ih recorded acc hacc₁ hacc₂
      · rw [if_neg h₂]
        by_cases h₃ : model_key (get_model_info matchers b) ∈ recorded
        · rw [if_pos h₃]
          exact ih recorded acc hacc₁ hacc₂
        · rw [if_neg h₃]
          have hck : articleModelKey matchers (nmTag matchers b) =
              model_key (get_model_info matchers b) := rfl
          have hacc₁' : (acc ++ [nmTag matchers b]).Pairwise (fun x y =>
              articleModelKey matchers x ≠ articleModelKey matchers y) := by
            rw [List.pairwise_append]
            refine ⟨hacc₁, List.pairwise_singleton _ _, ?_⟩
            intro x hx y hy
            rw [List.mem_singleton] at hy
            subst hy
            rw [hck]
            intro heq
            exact h₃ (heq ▸ hacc₂ x hx)
          have hacc₂' : ∀ x ∈ acc ++ [nmTag matchers b],
              articleModelKey matchers x ∈
                recorded ++ [model_key (get_model_info matchers b)] := by
            intro x hx
            rcases List.mem_append.mp hx with hx | hx
            · exact List.mem_append_left _ (hacc₂ x hx)
            · rw [List.mem_singleton] at hx
              subst hx
              rw [hck]
              exact List.mem_append_right _ (List.mem_singleton.mpr rfl)
          by_cases h₄ : max_extra ≤ (acc ++ [nmTag matchers b]).length
          · rw [if_pos h₄]
            refine ⟨fun k' hk' => List.mem_append_left _ hk', hacc₂', ?_, hacc₁'⟩
            intro x hx
            rcases List.mem_append.mp hx with hx | hx
            · exact Or.inl hx
            · rw [List.mem_singleton] at hx
              subst hx
              exact Or.inr (hck ▸ h₃)
          · rw [if_neg h₄]
            obtain ⟨ih1, ih2, ih3, ih4⟩ :=
              ih (recorded ++ [model_key (get_model_info matchers b)])
                (acc ++ [nmTag matchers b]) hacc₁' hacc₂'
            refine ⟨fun k' hk' => ih1 k' (List.mem_append_left _ hk'), ih2, ?_,
              ih4⟩
            intro x hx
            rcases ih3 x hx with hx' | hx'
            · rcases List.mem_append.mp hx' with h | h
              · exact Or.inl h
              · rw [List.mem_singleton] at h
                subst h
                exact Or.inr (hck ▸ h₃)
            · exact Or.inr fun hmem => hx' (List.mem_append_left _ hmem)

/-- A sequence of `filter_new_model_releases` calls on one detector
instance, threading the instance state `self._recorded_models`; each call
is given its own article batch, `max_extra` and time cutoff.  Returns the
per-call outputs and the final state. -/
def runNmCalls (kw : List String) (matchers : List Matcher) :
    List String → List (List Article × Nat × Int) →
      List (List Article) × List String
  | s, [] => ([], s)
  | s, (articles, max_extra, cutoff) :: rest =>
    let r := filter_new_model_releases kw matchers cutoff s articles max_extra
    let rr := runNmCalls kw matchers r.2 rest
    (r.1 :: rr.1, rr.2)

/-- Keys present in the state stay in the state across a call sequence. -/
theorem runNmCalls_state_mono {kw : List String} {matchers : List Matcher} :
    ∀ (batches : List (List Article × Nat × Int)) (s : List String)
      (k : String), k ∈ s → k ∈ (runNmCalls kw matchers s batches).2 := by
  intro batches
  induction batches with
  | nil => exact fun s k hk => hk
  | cons b rest ih =>
    intro s k hk
    obtain ⟨articles, max_extra, cutoff⟩ := b
    unfold runNmCalls
    dsimp only
    exact ih _ k ((filterGo_spec articles s [] List.Pairwise.nil
      (by intro x hx; simp at hx)).1 k hk)

/-- Across a call sequence: every emitted article's key lands in the final
state and was not in the starting state, and all emitted articles (across
all calls) have pairwise distinct keys. -/
theorem runNmCalls_spec {kw : List String} {matchers : List Matcher} :
    ∀ (batches : List (List Article × Nat × Int)) (s : List String),
      (∀ x ∈ ((runNmCalls kw matchers s batches).1).flatten,
        articleModelKey matchers x ∈ (runNmCalls kw matchers s batches).2 ∧
          articleModelKey matchers x ∉ s) ∧
      ((runNmCalls kw matchers s batches).1).flatten.Pairwise
        (fun x y =>
          articleModelKey matchers x ≠ articleModelKey matchers y) := by
  intro batches
  induction batches with
  | nil =>
    intro s
    exact ⟨by intro x hx; simp [runNmCalls] at hx, by simp [runNmCalls]⟩
  | cons b rest ih =>
    intro s
    obtain ⟨articles, max_extra, cutoff⟩ := b
    unfold runNmCalls
    dsimp only
    obtain ⟨g1, g2, g3, g4⟩ := @filterGo_spec kw matchers cutoff max_extra
      articles s [] List.Pairwise.nil (by intro x hx; simp at hx)
    obtain ⟨ih1, ih2⟩ := ih
      (filter_new_model_releases kw matchers cutoff s articles max_extra).2
    rw [List.flatten_cons]
    constructor
    · intro x hx
      rcases List.mem_append.mp hx with hx | hx
      · refine ⟨runNmCalls_state_mono rest _ _ (g2 x hx), ?_⟩
        rcases g3 x hx with h | h
        · simp at h
        · exact h
      · obtain ⟨hin, hnotin⟩ := ih1 x hx
        exact ⟨hin, fun hs => hnotin (g1 _ hs)⟩
    · rw [List.pairwise_append]
      refine ⟨g4, ih2, ?_⟩
      intro x hx y hy
      have hxk := g2 x hx
      have hyk := (ih1 y hy).2
      intro heq
      exact hyk (heq ▸ hxk)

end NewModelReleaseFilter

/-- Claim C10: On a single `NewModelReleaseFilter` instance, across any sequence
of `filter_new_model_releases` calls (with the recorded-models state
threaded from call to call and no intervening `reset_daily_record`), no two
returned articles — within one call or across calls — share the same
`(company, model_name)` key: the recorded-models set persists between calls
and suppresses repeated releases. -/
theorem nm_detector_no_repeated_keys (kw : List String)
    (matchers : List NewModelReleaseFilter.Matcher) (s₀ : List String)
    (batches : List (List Article × Nat × Int)) :
    ((NewModelReleaseFilter.runNmCalls kw matchers s₀ batches).1).flatten.Pairwise
      (fun x y => ¬
        ((NewModelReleaseFilter.get_model_info matchers x).company =
            (NewModelReleaseFilter.get_model_info matchers y).company ∧
          (NewModelReleaseFilter.get_model_info matchers x).model_name =
            (NewModelReleaseFilter.get_model_info matchers y).model_name)) := by
  have h := (@NewModelReleaseFilter.runNmCalls_spec kw matchers batches s₀).2
  refine h.imp ?_
  intro x y hne hpair
  apply hne
  unfold NewModelReleaseFilter.articleModelKey NewModelReleaseFilter.model_key
  rw [hpair.1, hpair.2]
